import Mathlib

/-!
# Verification of the `archicad_builder` spatial reasoning and validation engine

Shallow embedding of the Python sources of `kaza/ai-building-designer`
(`src/archicad_builder/...`) in Lean 4, over exact rational coordinates.

Modelling conventions, used consistently below:

* Python `float` is modelled as `ℚ`.  Every comparison the source makes
  between a Euclidean distance `math.sqrt(s)` and a bound `t` is embedded as
  the exactly-equivalent comparison of the squared distance:
  for `s ≥ 0`, `sqrt s ≤ t ↔ (0 ≤ t ∧ s ≤ t^2)` and
  `sqrt s < sqrt s' ↔ s < s'`.  Definitions whose *result values* (not just
  comparisons) depend on `math.sqrt` take an explicit function parameter
  `sq : ℚ → ℚ` standing for the square-root primitive; theorems that hold for
  every `sq` are stated that way, and concrete computations instantiate `sq`
  with `ratSqrt`, which is exact whenever the radicand is the square of a
  rational (all concrete fixtures below only take square roots of perfect
  squares).
* Python `dict` (insertion ordered) is an association list with
  replace-in-place insertion; Python `set` is a deduplicated list.
* A Python exception is the `Except.error` case of an `Except` result.
* Finding messages: the source interpolates coordinates and names into its
  message strings; the embedding keeps a short stable tag per message site
  (e.g. `"E023-outside"`), since no claim depends on the interpolated text.
-/

namespace ArchicadBuilder

/-- Exact square root on `ℚ`: exact whenever the numerator and denominator are
perfect squares (all concrete fixtures in this file arrange for that);
otherwise it returns the componentwise `Nat.sqrt` approximation.  Used only to
instantiate the abstract `sq` parameter at concrete inputs. -/
def ratSqrt (q : ℚ) : ℚ :=
  (Nat.sqrt q.num.natAbs : ℚ) / (Nat.sqrt q.den : ℚ)

/-- Python `str.lower()` (ASCII, which is all the source's names use). -/
def pyLower (s : String) : String :=
  String.mk (s.data.map Char.toLower)

/-- Python `hay.startswith(pre)` (structural on the character lists, so it
reduces in the kernel). -/
def pyStartsWith (hay pre : String) : Bool :=
  pre.data.isPrefixOf hay.data

/-- `needle` occurs as a contiguous substring of `hay` — Python's
`needle in hay`. -/
def strContains (hay needle : String) : Bool :=
  (List.range (hay.data.length + 1)).any
    (fun i => needle.data.isPrefixOf (hay.data.drop i))

/-- Helper for `pySplit`: split a character list on spaces, dropping empty
fragments; `cur` is the (reversed) current word. -/
def pySplitChars : List Char → List Char → List String
  | [], cur => if cur = [] then [] else [String.mk cur.reverse]
  | c :: rest, cur =>
      if c = ' ' then
        if cur = [] then pySplitChars rest []
        else String.mk cur.reverse :: pySplitChars rest []
      else pySplitChars rest (c :: cur)

/-- Python `str.split()` restricted to the space character: split on runs of
spaces, dropping empty fragments (`"".split() == []`). -/
def pySplit (s : String) : List String :=
  pySplitChars s.data []

/-- `models/geometry.py` `Point2D`: 2D point in meters. -/
structure Point2D where
  x : ℚ
  y : ℚ
deriving DecidableEq, Repr

/-- Squared Euclidean distance between two points.  The source computes
`math.sqrt` of this; see the header for the squared-comparison convention. -/
def dist2 (p q : Point2D) : ℚ :=
  (p.x - q.x) ^ 2 + (p.y - q.y) ^ 2

/-- `sqrt s ≤ t`, expressed on the squared distance `s` (exact for `s ≥ 0`). -/
def sqrtLE (s t : ℚ) : Bool :=
  decide (0 ≤ t) && decide (s ≤ t ^ 2)

/-- `models/geometry.py` `Polygon2D`: closed polygon, vertex list.  The
source's pydantic validator requires at least 3 vertices; the embedding keeps
the plain list and states that invariant in theorems where it matters. -/
structure Polygon2D where
  vertices : List Point2D
deriving DecidableEq, Repr

/-- Cyclic vertex access used by the shoelace loop: `vertices[j]` for
`j = (i+1) % n`; out-of-range defaults never arise for indices `< n`. -/
def polyVertex (vs : List Point2D) (j : ℕ) : Point2D :=
  vs.getD j ⟨0, 0⟩

/-- `Polygon2D.area`: shoelace formula, absolute value — direct transcription
of the indexed loop `for i in range(n): j = (i+1) % n; ...`. -/
def polygon_area (p : Polygon2D) : ℚ :=
  let vs := p.vertices
  let n := vs.length
  |∑ i ∈ Finset.range n,
      ((polyVertex vs i).x * (polyVertex vs ((i + 1) % n)).y
        - (polyVertex vs ((i + 1) % n)).x * (polyVertex vs i).y)| / 2

/-! ## Data model (`models/elements.py`, `models/spaces.py`, `models/building.py`)

Only the fields the verified operations read are carried; every carried field
matches the source model.  `global_id`, `name`, `tag` are strings; the pydantic
defaults make all of them possibly empty. -/

/-- `models/elements.py` `Wall`. -/
structure Wall where
  global_id : String
  name : String
  tag : String
  start : Point2D
  stop : Point2D        -- source field `end` (Lean keyword)
  height : ℚ
  thickness : ℚ
  load_bearing : Bool
  is_external : Bool
deriving DecidableEq, Repr

/-- `models/elements.py` `Door`. -/
structure Door where
  global_id : String
  name : String
  tag : String
  wall_id : String
  position : ℚ
  width : ℚ
  height : ℚ
deriving DecidableEq, Repr

/-- `models/elements.py` `Window`. -/
structure Window where
  global_id : String
  name : String
  tag : String
  wall_id : String
  position : ℚ
  width : ℚ
  height : ℚ
  sill_height : ℚ
deriving DecidableEq, Repr

/-- `models/elements.py` `Slab`. -/
structure Slab where
  global_id : String
  name : String
  outline : Polygon2D
  thickness : ℚ
  is_floor : Bool
deriving DecidableEq, Repr

/-- `models/elements.py` `Staircase`. -/
structure Staircase where
  global_id : String
  name : String
  tag : String
  outline : Polygon2D
  width : ℚ
  riser_height : ℚ
  tread_length : ℚ
deriving DecidableEq, Repr

/-- `models/elements.py` `VirtualElement`. -/
structure VirtualElement where
  global_id : String
  name : String
  tag : String
  start : Point2D
  stop : Point2D
deriving DecidableEq, Repr

/-- `models/spaces.py` `RoomType`. -/
inductive RoomType where
  | living | bedroom | kitchen | bathroom | toilet | hallway | storage
  | balcony | corridor | staircase | elevator | utility | office | notdefined
deriving DecidableEq, Repr

/-- `RoomType.value`: the string value of the enum member. -/
def RoomType.value : RoomType → String
  | .living => "living"
  | .bedroom => "bedroom"
  | .kitchen => "kitchen"
  | .bathroom => "bathroom"
  | .toilet => "toilet"
  | .hallway => "hallway"
  | .storage => "storage"
  | .balcony => "balcony"
  | .corridor => "corridor"
  | .staircase => "staircase"
  | .elevator => "elevator"
  | .utility => "utility"
  | .office => "office"
  | .notdefined => "notdefined"

/-- `models/spaces.py` `Space`. -/
structure Space where
  global_id : String
  name : String
  tag : String
  room_type : RoomType
  boundary : Polygon2D
deriving DecidableEq, Repr

/-- `Space.area` property. -/
def Space.area (s : Space) : ℚ := polygon_area s.boundary

/-- `models/spaces.py` `Apartment`. -/
structure Apartment where
  global_id : String
  name : String
  tag : String
  boundary : Polygon2D
  spaces : List Space
deriving DecidableEq, Repr

/-- `Apartment.get_space_by_type`. -/
def Apartment.get_space_by_type (a : Apartment) (rt : RoomType) : List Space :=
  a.spaces.filter (fun s => s.room_type = rt)

/-- `models/building.py` `Story`. -/
structure Story where
  global_id : String
  name : String
  elevation : ℚ
  height : ℚ
  walls : List Wall
  slabs : List Slab
  doors : List Door
  windows : List Window
  staircases : List Staircase
  virtual_elements : List VirtualElement
  spaces : List Space
  apartments : List Apartment
deriving DecidableEq, Repr

/-- `models/building.py` `Building` (stories only; file I/O and the CRUD API
are out of the verified scope). -/
structure Building where
  global_id : String
  name : String
  stories : List Story
deriving DecidableEq, Repr

/-- `Building.get_story`: find a story by name, case-insensitively. -/
def Building.get_story (b : Building) (name : String) : Option Story :=
  b.stories.find? (fun s => pyLower s.name = pyLower name)

/-- Tagging pass shared by `Story.ensure_tags`: walk a list with a 1-based
counter (incremented for *every* element, as in the source), assigning
`prefixStr ++ counter` to elements whose tag is empty. -/
def tagList {α : Type} (getTag : α → String) (setTag : α → String → α)
    (pre : String) : ℕ → List α → List α
  | _, [] => []
  | i, a :: as =>
      (if getTag a = "" then setTag a (pre ++ toString i) else a)
        :: tagList getTag setTag pre (i + 1) as

/-- `models/building.py` `Story.ensure_tags`: auto-assign `W1, W2, …`,
`D1, …`, `Win1, …`, `ST1, …`, `V1, …`, `R1, …`, `A1, …` to untagged elements,
mutating the story; modelled as returning the updated story. -/
def Story.ensure_tags (st : Story) : Story :=
  { st with
    walls := tagList Wall.tag (fun w t => { w with tag := t }) "W" 1 st.walls
    doors := tagList Door.tag (fun d t => { d with tag := t }) "D" 1 st.doors
    windows := tagList Window.tag (fun w t => { w with tag := t }) "Win" 1 st.windows
    staircases := tagList Staircase.tag (fun s t => { s with tag := t }) "ST" 1 st.staircases
    virtual_elements :=
      tagList VirtualElement.tag (fun v t => { v with tag := t }) "V" 1 st.virtual_elements
    spaces := tagList Space.tag (fun s t => { s with tag := t }) "R" 1 st.spaces
    apartments := tagList Apartment.tag (fun a t => { a with tag := t }) "A" 1 st.apartments }

/-- `validators/structural.py` `ValidationError` (a pure value). -/
structure ValidationError where
  severity : String
  element_type : String
  element_id : String
  message : String
deriving DecidableEq, Repr

/-! ## Connectivity graph (`queries/connectivity.py`) -/

/-- `GraphNode`: a node of the room connectivity graph. -/
structure GraphNode where
  name : String
  node_type : String
  area : ℚ
  storey : String
deriving DecidableEq, Repr

/-- `GraphEdge`: a door connecting two nodes. -/
structure GraphEdge where
  door_name : String
  door_width : ℚ
  from_node : String
  to_node : String
deriving DecidableEq, Repr

/-- `ConnectivityGraph`; `nodes` is a Python dict, modelled as an
insertion-ordered association list. -/
structure ConnectivityGraph where
  storey : String
  nodes : List (String × GraphNode)
  edges : List GraphEdge
deriving DecidableEq, Repr

/-- Python dict assignment `m[k] = v`: replace in place if the key is present,
else append. -/
def dictInsert (m : List (String × GraphNode)) (k : String) (v : GraphNode) :
    List (String × GraphNode) :=
  if m.any (fun p => p.1 = k) then
    m.map (fun p => if p.1 = k then (k, v) else p)
  else m ++ [(k, v)]

/-- Python `k in m` for the nodes dict. -/
def dictContains (m : List (String × GraphNode)) (k : String) : Bool :=
  m.any (fun p => p.1 = k)

/-- Python `m[k]` lookup (as an `Option`). -/
def dictFind (m : List (String × GraphNode)) (k : String) : Option GraphNode :=
  (m.find? (fun p => p.1 = k)).map Prod.snd

/-- `ConnectivityGraph.neighbors`: all neighbors of a node with their
connecting edges, scanning the edge list in both directions. -/
def ConnectivityGraph.neighbors (g : ConnectivityGraph) (node_name : String) :
    List (String × GraphEdge) :=
  g.edges.foldl
    (fun acc edge =>
      if edge.from_node = node_name then acc ++ [(edge.to_node, edge)]
      else if edge.to_node = node_name then acc ++ [(edge.from_node, edge)]
      else acc)
    []

/-- Names of the neighbors of a node. -/
def neighborNames (g : ConnectivityGraph) (v : String) : List String :=
  (g.neighbors v).map Prod.fst

/-- All node names mentioned by edges — a finite universe for the BFS bound. -/
def edgeNames (g : ConnectivityGraph) : List String :=
  g.edges.flatMap (fun e => [e.from_node, e.to_node])

/-- One BFS expansion: visit every not-yet-visited neighbor, appending it to
both the visited list and the queue (the loop body of `reachable_from`). -/
def bfsStep (nbs : List String) (vq : List String × List String) :
    List String × List String :=
  nbs.foldl
    (fun vq nb => if nb ∈ vq.1 then vq else (vq.1 ++ [nb], vq.2 ++ [nb]))
    vq

/-- The `while queue:` loop of `reachable_from`, with explicit fuel bounding
the number of iterations.  `bfs_fuel_sufficient` below shows the bound chosen
by `reachable_from` is never exhausted, so the fuel is a faithful rendering of
the source's unbounded loop. -/
def bfsGo (g : ConnectivityGraph) :
    ℕ → List String × List String → List String × List String
  | 0, vq => vq
  | _ + 1, (visited, []) => (visited, [])
  | fuel + 1, (visited, current :: rest) =>
      bfsGo g fuel (bfsStep (neighborNames g current) (visited, rest))

/-- `ConnectivityGraph.reachable_from`: BFS over the undirected adjacency;
returns the empty set when the start is not a node. -/
def ConnectivityGraph.reachable_from (g : ConnectivityGraph) (start : String) :
    List String :=
  if dictContains g.nodes start then
    (bfsGo g ((edgeNames g).length + 1) ([start], [start])).1
  else []

/-! ### Point containment (`_point_in_polygon` and friends) -/

/-- `_point_in_polygon`: ray casting, even-odd rule — direct transcription of
the `j = n - 1; for i in range(n): ...` loop (each iteration reads vertices
`i` and `j`, then sets `j = i`, so `j` is `n-1` once and `i-1` afterwards). -/
def point_in_polygon (px py : ℚ) (vertices : List (ℚ × ℚ)) : Bool :=
  let n := vertices.length
  (List.range n).foldl
    (fun inside i =>
      let vi := vertices.getD i (0, 0)
      let vj := vertices.getD (if i = 0 then n - 1 else i - 1) (0, 0)
      if (decide (vi.2 > py) != decide (vj.2 > py))
          && decide (px < (vj.1 - vi.1) * (py - vi.2) / (vj.2 - vi.2) + vi.1)
      then !inside else inside)
    false

/-- `_point_to_segment_distance`, squared (see header): squared distance from
`(px, py)` to the segment `(x1,y1)-(x2,y2)`, with the degenerate-segment
fallback below `1e-12`. -/
def point_to_segment_dist2 (px py x1 y1 x2 y2 : ℚ) : ℚ :=
  let dx := x2 - x1
  let dy := y2 - y1
  let length_sq := dx * dx + dy * dy
  if length_sq < 1 / 10 ^ 12 then (px - x1) ^ 2 + (py - y1) ^ 2
  else
    let t := max 0 (min 1 (((px - x1) * dx + (py - y1) * dy) / length_sq))
    (px - (x1 + t * dx)) ^ 2 + (py - (y1 + t * dy)) ^ 2

/-- `_point_in_polygon_with_tolerance`: inside, or within `tolerance` of some
edge (`dist <= tolerance` embedded as the squared comparison `sqrtLE`). -/
def point_in_polygon_with_tolerance (px py : ℚ) (vertices : List (ℚ × ℚ))
    (tolerance : ℚ) : Bool :=
  if point_in_polygon px py vertices then true
  else
    let n := vertices.length
    (List.range n).any (fun i =>
      let v1 := vertices.getD i (0, 0)
      let v2 := vertices.getD ((i + 1) % n) (0, 0)
      sqrtLE (point_to_segment_dist2 px py v1.1 v1.2 v2.1 v2.2) tolerance)

/-! ### Zone synthesis -/

/-- `_Zone`: a bounded area used for containment tests. -/
structure Zone where
  name : String
  zone_type : String
  vertices : List (ℚ × ℚ)
  area : ℚ
deriving DecidableEq, Repr, Inhabited

/-- Python `min(list)` (callers guarantee nonemptiness; 0 on empty). -/
def pyMin : List ℚ → ℚ
  | [] => 0
  | x :: xs => xs.foldl min x

/-- Python `max(list)` (callers guarantee nonemptiness; 0 on empty). -/
def pyMax : List ℚ → ℚ
  | [] => 0
  | x :: xs => xs.foldl max x

/-- All endpoint x-coordinates of a wall list. -/
def wallXs (walls : List Wall) : List ℚ :=
  walls.flatMap (fun w => [w.start.x, w.stop.x])

/-- All endpoint y-coordinates of a wall list. -/
def wallYs (walls : List Wall) : List ℚ :=
  walls.flatMap (fun w => [w.start.y, w.stop.y])

/-- `_zone_from_walls`: rectangular zone from the bounding box of a wall set;
`None` when empty or degenerate (< 1 cm in either dimension). -/
def zone_from_walls (walls : List Wall) (name zone_type : String) :
    Option Zone :=
  if walls = [] then none
  else
    let min_x := pyMin (wallXs walls)
    let max_x := pyMax (wallXs walls)
    let min_y := pyMin (wallYs walls)
    let max_y := pyMax (wallYs walls)
    let width := max_x - min_x
    let height := max_y - min_y
    if width < 1 / 100 ∨ height < 1 / 100 then none
    else
      some
        { name := name
          zone_type := zone_type
          vertices := [(min_x, min_y), (max_x, min_y), (max_x, max_y), (min_x, max_y)]
          area := width * height }

/-- `_synthesize_common_zones`: corridor / lobby / vestibule / elevator
bounding-box zones from wall-name keywords, plus one zone per staircase
outline. -/
def synthesize_common_zones (story : Story) : List Zone :=
  let corridor_walls := story.walls.filter (fun w => pyStartsWith (pyLower w.name) "corridor")
  let lobby_walls := story.walls.filter (fun w => pyStartsWith (pyLower w.name) "lobby")
  let elevator_walls := story.walls.filter (fun w => pyStartsWith (pyLower w.name) "elevator")
  let vestibule_walls := story.walls.filter (fun w => strContains (pyLower w.name) "vestibule")
  let corridorZ := (zone_from_walls corridor_walls "Corridor" "corridor").toList
  let lobbyZ :=
    if lobby_walls = [] then []
    else
      let all_xs := wallXs lobby_walls
      let all_ys := wallYs lobby_walls
      [{ name := "Lobby"
         zone_type := "lobby"
         vertices :=
           [(pyMin all_xs, 0), (pyMax all_xs, 0),
            (pyMax all_xs, pyMax all_ys), (pyMin all_xs, pyMax all_ys)]
         area := (pyMax all_xs - pyMin all_xs) * (pyMax all_ys - 0) : Zone }]
  let vestibuleZ := (zone_from_walls vestibule_walls "Core Vestibule" "vestibule").toList
  let elevatorZ :=
    if elevator_walls = [] then []
    else
      let divider_walls :=
        story.walls.filter (fun w => pyStartsWith (pyLower w.name) "core divider")
      let combined := elevator_walls ++ divider_walls.filter (fun w => w ∉ elevator_walls)
      (zone_from_walls combined "Elevator" "elevator").toList
  let stairZ := story.staircases.map (fun st =>
    { name := if st.name = "" then "Staircase" else st.name
      zone_type := "staircase"
      vertices := st.outline.vertices.map (fun v => (v.x, v.y))
      area := polygon_area st.outline : Zone })
  corridorZ ++ lobbyZ ++ vestibuleZ ++ elevatorZ ++ stairZ

/-! ### Door-to-zone matching and the graph builder -/

/-- `_door_center_2d` — needs the square-root *value*, hence the `sq`
parameter (see header). -/
def door_center_2d (sq : ℚ → ℚ) (door : Door) (wall : Wall) : ℚ × ℚ :=
  let dx := wall.stop.x - wall.start.x
  let dy := wall.stop.y - wall.start.y
  let length := sq (dx * dx + dy * dy)
  if length < 1 / 10 ^ 9 then (wall.start.x, wall.start.y)
  else
    let t := (door.position + door.width / 2) / length
    (wall.start.x + dx * t, wall.start.y + dy * t)

/-- `_wall_normal`: unit left-hand normal `(-dy, dx) / length`. -/
def wall_normal (sq : ℚ → ℚ) (wall : Wall) : ℚ × ℚ :=
  let dx := wall.stop.x - wall.start.x
  let dy := wall.stop.y - wall.start.y
  let length := sq (dx * dx + dy * dy)
  if length < 1 / 10 ^ 9 then (0, 1)
  else (-dy / length, dx / length)

/-- The common-area zone types of `_find_zone_at_point`. -/
def commonTypes : List String :=
  ["corridor", "vestibule", "lobby", "elevator", "staircase"]

/-- Stable sort of zones by ascending area (Python `list.sort(key=area)`,
a stable sort; `insertionSort` with `≤` computes the same stable sort and
reduces in the kernel). -/
def sortZonesByArea (zs : List Zone) : List Zone :=
  zs.insertionSort (fun a b => a.area ≤ b.area)

/-- `_find_zone_at_point`: exact containment matches first, else
tolerance-inclusive matches; disambiguate overlaps by preferring common-area
zones (when asked) and then the smallest area. -/
def find_zone_at_point (px py : ℚ) (zones : List Zone) (tolerance : ℚ)
    (prefer_common : Bool) : Option String :=
  let exact := zones.filter (fun z => point_in_polygon px py z.vertices)
  let found :=
    if exact = [] then
      zones.filter (fun z => point_in_polygon_with_tolerance px py z.vertices tolerance)
    else exact
  match found with
  | [] => none
  | [z] => some z.name
  | _ =>
      if prefer_common then
        let common := found.filter (fun z => z.zone_type ∈ commonTypes)
        if common ≠ [] then some ((sortZonesByArea common).headD default).name
        else some ((sortZonesByArea found).headD default).name
      else some ((sortZonesByArea found).headD default).name

/-- `_is_outside_building`: outside the exterior-wall bounding box (1 cm
margin), falling back to floor-slab outlines when there is no exterior
wall. -/
def is_outside_building (px py : ℚ) (story : Story) : Bool :=
  let ext_walls := story.walls.filter (fun w => w.is_external)
  if ext_walls ≠ [] then
    let min_x := pyMin (wallXs ext_walls)
    let max_x := pyMax (wallXs ext_walls)
    let min_y := pyMin (wallYs ext_walls)
    let max_y := pyMax (wallYs ext_walls)
    let margin : ℚ := 1 / 100
    decide (px < min_x - margin) || decide (px > max_x + margin) ||
      decide (py < min_y - margin) || decide (py > max_y + margin)
  else
    !(story.slabs.any (fun slab =>
        slab.is_floor &&
          point_in_polygon px py (slab.outline.vertices.map (fun v => (v.x, v.y)))))

/-- All zones collected by step 1 of `build_connectivity_graph`: apartment
room spaces, then top-level spaces, then synthesized common zones. -/
def zonesOfStory (story : Story) : List Zone :=
  (story.apartments.flatMap (fun apt => apt.spaces.map (fun space =>
      { name := space.name
        zone_type := space.room_type.value
        vertices := space.boundary.vertices.map (fun v => (v.x, v.y))
        area := space.area : Zone })))
    ++ story.spaces.map (fun space =>
      { name := space.name
        zone_type := space.room_type.value
        vertices := space.boundary.vertices.map (fun v => (v.x, v.y))
        area := space.area : Zone })
    ++ synthesize_common_zones story

/-- The `{w.global_id: w for w in story.walls}` dict lookup: on duplicate ids
the later wall wins, hence the reversed search. -/
def wallMapGet (walls : List Wall) (wid : String) : Option Wall :=
  walls.reverse.find? (fun w => w.global_id = wid)

/-- Keywords marking a door's host wall as a common-area wall. -/
def commonWallKeywords : List String :=
  ["core", "corridor", "staircase", "elevator", "vestibule", "lobby"]

/-- Resolve one probe point to a zone name: `_find_zone_at_point` (default
tolerance 0.15), falling back to `"Exterior"` outside the building. -/
def resolveSide (story : Story) (zones : List Zone) (prefer_common : Bool)
    (p : ℚ × ℚ) : Option String :=
  match find_zone_at_point p.1 p.2 zones (15 / 100) prefer_common with
  | some z => some z
  | none => if is_outside_building p.1 p.2 story then some "Exterior" else none

/-- The two probe-side resolutions for a door (steps 2–5 of
`build_connectivity_graph`'s door loop). -/
def doorSides (sq : ℚ → ℚ) (story : Story) (zones : List Zone)
    (step_distance : ℚ) (door : Door) (wall : Wall) :
    Option String × Option String :=
  let c := door_center_2d sq door wall
  let nv := wall_normal sq wall
  let side_a := (c.1 + nv.1 * step_distance, c.2 + nv.2 * step_distance)
  let side_b := (c.1 - nv.1 * step_distance, c.2 - nv.2 * step_distance)
  let is_common_wall := commonWallKeywords.any (fun kw => strContains (pyLower wall.name) kw)
  (resolveSide story zones is_common_wall side_a,
   resolveSide story zones is_common_wall side_b)

/-- The body of the `for door in story.doors:` loop of
`build_connectivity_graph`. -/
def processDoor (sq : ℚ → ℚ) (story : Story) (zones : List Zone)
    (storey_name : String) (step_distance : ℚ) (g : ConnectivityGraph)
    (door : Door) : ConnectivityGraph :=
  match wallMapGet story.walls door.wall_id with
  | none => g
  | some wall =>
      let zz := doorSides sq story zones step_distance door wall
      let from_node := zz.1.getD "Unknown"
      let to_node := zz.2.getD "Unknown"
      if from_node = to_node then g
      else
        let nodes1 :=
          if !dictContains g.nodes from_node && from_node ≠ "Unknown" then
            dictInsert g.nodes from_node
              { name := from_node, node_type := "unknown", area := 0, storey := storey_name }
          else g.nodes
        let nodes2 :=
          if !dictContains nodes1 to_node && to_node ≠ "Unknown" then
            dictInsert nodes1 to_node
              { name := to_node, node_type := "unknown", area := 0, storey := storey_name }
          else nodes1
        let edges1 :=
          if from_node ≠ "Unknown" && to_node ≠ "Unknown" then
            g.edges ++
              [{ door_name := if door.name = "" then "unnamed" else door.name
                 door_width := door.width
                 from_node := from_node
                 to_node := to_node }]
          else g.edges
        { g with nodes := nodes2, edges := edges1 }

/-- `build_connectivity_graph` for a resolved story: collect zones, register
a node per zone plus the `Exterior` anchor, then run the door loop. -/
def build_graph_of_story (sq : ℚ → ℚ) (story : Story) (storey_name : String)
    (step_distance : ℚ) : ConnectivityGraph :=
  let zones := zonesOfStory story
  let nodes0 := zones.foldl
    (fun m zone =>
      dictInsert m zone.name
        { name := zone.name, node_type := zone.zone_type, area := zone.area
          storey := storey_name })
    []
  let nodes1 := dictInsert nodes0 "Exterior"
    { name := "Exterior", node_type := "exterior", area := 0, storey := storey_name }
  story.doors.foldl (processDoor sq story zones storey_name step_distance)
    { storey := storey_name, nodes := nodes1, edges := [] }

/-- `build_connectivity_graph`: `Building._require_story` raises on a missing
story name, modelled as `none`. -/
def build_connectivity_graph (sq : ℚ → ℚ) (b : Building) (storey_name : String)
    (step_distance : ℚ) : Option ConnectivityGraph :=
  (b.get_story storey_name).map
    (fun story => build_graph_of_story sq story storey_name step_distance)

/-- Specification form of the per-door edge decision (used to state the
corrected C1): the edge `build_connectivity_graph` appends for a door, if
any — present exactly when both sides resolve and the two names differ. -/
def doorEdgeSpec (sq : ℚ → ℚ) (story : Story) (zones : List Zone)
    (step_distance : ℚ) (door : Door) : Option GraphEdge :=
  match wallMapGet story.walls door.wall_id with
  | none => none
  | some wall =>
      let zz := doorSides sq story zones step_distance door wall
      let from_node := zz.1.getD "Unknown"
      let to_node := zz.2.getD "Unknown"
      if from_node = to_node then none
      else if from_node ≠ "Unknown" && to_node ≠ "Unknown" then
        some
          { door_name := if door.name = "" then "unnamed" else door.name
            door_width := door.width
            from_node := from_node
            to_node := to_node }
      else none

/-! ## Endpoint snapping (`validators/snap.py`) -/

/-- `SnapResult`; `endSide` is the source field `end` (a Lean keyword). -/
structure SnapResult where
  wall_tag : String
  endSide : String
  old : ℚ × ℚ
  new : ℚ × ℚ
  snapped_to_wall : String
  snapped_to_end : String
deriving DecidableEq, Repr

/-- `_project_onto_segment`: projection of a point onto a segment, `none`
unless it lands strictly inside (parameter in `(0.01, 0.99)`). -/
def project_onto_segment (p seg_start seg_end : Point2D) : Option Point2D :=
  let dx := seg_end.x - seg_start.x
  let dy := seg_end.y - seg_start.y
  let length_sq := dx * dx + dy * dy
  if length_sq < 1 / 10 ^ 12 then none
  else
    let t := ((p.x - seg_start.x) * dx + (p.y - seg_start.y) * dy) / length_sq
    if t ≤ 1 / 100 ∨ t ≥ 99 / 100 then none
    else some ⟨seg_start.x + t * dx, seg_start.y + t * dy⟩

/-- Placeholder wall for out-of-range indexed access (never reached: all
indices are `< length`). -/
def junkWall : Wall :=
  { global_id := "", name := "", tag := "", start := ⟨0, 0⟩, stop := ⟨1, 0⟩
    height := 1, thickness := 1, load_bearing := false, is_external := false }

/-- `d2` improves on the best candidate so far (`float("inf")` start =
`none`). -/
def snapBetter (d2 : ℚ) : Option (ℚ × Point2D × String × String) → Bool
  | none => true
  | some b => decide (d2 < b.1)

/-- The best-candidate search of `snap_endpoints` for one endpoint: nearest
other-wall endpoint or body point strictly farther than `1e-10`
(`1e-20` on squared distances), tracked as
`(squared distance, target point, target tag, target end)`. -/
def snapBest (ws : List Wall) (i : ℕ) (endpoint : Point2D) :
    Option (ℚ × Point2D × String × String) :=
  let endpointPass := (List.range ws.length).foldl
    (fun best j =>
      if j = i then best
      else
        let other := ws.getD j junkWall
        [(other.start, "start"), (other.stop, "end")].foldl
          (fun best pe =>
            let d2 := dist2 endpoint pe.1
            if decide ((1 : ℚ) / 10 ^ 20 < d2) && snapBetter d2 best then
              some (d2, pe.1, other.tag, pe.2)
            else best)
          best)
    none
  (List.range ws.length).foldl
    (fun best j =>
      if j = i then best
      else
        let other := ws.getD j junkWall
        match project_onto_segment endpoint other.start other.stop with
        | none => best
        | some proj =>
            let d2 := dist2 endpoint proj
            if decide ((1 : ℚ) / 10 ^ 20 < d2) && snapBetter d2 best then
              some (d2, proj, other.tag, "body")
            else best)
    endpointPass

/-- One iteration of the `snap_endpoints` double loop: process endpoint
`(i, start?)` of the current (already partially snapped) wall list. -/
def snapStepOne (tol : ℚ) (st : List Wall × List SnapResult) (step : ℕ × Bool) :
    List Wall × List SnapResult :=
  let ws := st.1
  let i := step.1
  let isStart := step.2
  let wall := ws.getD i junkWall
  let endpoint := if isStart then wall.start else wall.stop
  match snapBest ws i endpoint with
  | none => st
  | some best =>
      if sqrtLE best.1 tol then
        let target := best.2.1
        let wall' :=
          if isStart then { wall with start := ⟨target.x, target.y⟩ }
          else { wall with stop := ⟨target.x, target.y⟩ }
        (ws.set i wall',
         st.2 ++
           [{ wall_tag := wall.tag
              endSide := if isStart then "start" else "end"
              old := (endpoint.x, endpoint.y)
              new := (target.x, target.y)
              snapped_to_wall := best.2.2.1
              snapped_to_end := best.2.2.2 }])
      else st

/-- `snap_endpoints`: tag the story, then walk each wall's `start` and `end`
in order, snapping in place; returns the snap records and the mutated
story. -/
def snap_endpoints (story : Story) (tolerance : ℚ) :
    List SnapResult × Story :=
  let st := story.ensure_tags
  let steps := (List.range st.walls.length).flatMap (fun i => [(i, true), (i, false)])
  let res := steps.foldl (snapStepOne tolerance) (st.walls, [])
  (res.2, { st with walls := res.1 })

/-! ## Wall connectivity diagnostics (`validators/connectivity.py`) -/

/-- `WallConnection`; `dist2` holds the squared distance (the source stores
the Euclidean distance; no claim reads this field). -/
structure WallConnection where
  wall1_tag : String
  wall1_end : String
  wall2_tag : String
  wall2_end : String
  dist2 : ℚ
deriving DecidableEq, Repr

/-- `d2` improves on the best connection so far. -/
def connBetter (d2 : ℚ) : Option WallConnection → Bool
  | none => true
  | some b => decide (d2 < b.dist2)

/-- Best-match search of `find_connections` for one endpoint (no minimum
distance here, unlike snapping: exact coincidences count as connections). -/
def connectionBest (ws : List Wall) (i : ℕ) (tag1 end1 : String)
    (endpoint : Point2D) : Option WallConnection :=
  (List.range ws.length).foldl
    (fun best j =>
      if j = i then best
      else
        let other := ws.getD j junkWall
        let afterEnds :=
          [(other.start, "start"), (other.stop, "end")].foldl
            (fun best pe =>
              let d2 := dist2 endpoint pe.1
              if connBetter d2 best then
                some
                  { wall1_tag := tag1, wall1_end := end1, wall2_tag := other.tag
                    wall2_end := pe.2, dist2 := d2 }
              else best)
            best
        let d2body :=
          point_to_segment_dist2 endpoint.x endpoint.y other.start.x other.start.y
            other.stop.x other.stop.y
        if connBetter d2body afterEnds then
          some
            { wall1_tag := tag1, wall1_end := end1, wall2_tag := other.tag
              wall2_end := "body", dist2 := d2body }
        else afterEnds)
    none

/-- `find_connections`: tag the story, then report the best match for every
endpoint — a connection when within tolerance, a `warning` finding otherwise.
The story value returned last is the (tag-mutated) story the Python function
leaves behind. -/
def find_connections (story : Story) (tolerance : ℚ) :
    (List WallConnection × List ValidationError) × Story :=
  let st := story.ensure_tags
  let ws := st.walls
  let res := (List.range ws.length).foldl
    (fun acc i =>
      let wall := ws.getD i junkWall
      [("start", wall.start), ("end", wall.stop)].foldl
        (fun acc pe =>
          match connectionBest ws i wall.tag pe.1 pe.2 with
          | none => acc
          | some best =>
              if sqrtLE best.dist2 tolerance then (acc.1 ++ [best], acc.2)
              else
                (acc.1,
                 acc.2 ++
                   [{ severity := "warning", element_type := "Wall"
                      element_id := wall.global_id, message := "no-connection" }]))
        acc)
    (([] : List WallConnection), ([] : List ValidationError))
  (res, st)

/-- `validate_connectivity`: the error list of `find_connections`. -/
def validate_connectivity (story : Story) (tolerance : ℚ) :
    List ValidationError :=
  (find_connections story tolerance).1.2

/-! ## Building-level validators (`validators/building.py`) -/

/-- `_points_close`: `distance(p1, p2) <= tolerance`, squared form. -/
def points_close (p1 p2 : Point2D) (tolerance : ℚ) : Bool :=
  sqrtLE (dist2 p1 p2) tolerance

/-- `_has_aligned_wall`: a candidate matches in either orientation. -/
def has_aligned_wall (wall : Wall) (candidates : List Wall) (tolerance : ℚ) :
    Bool :=
  candidates.any (fun other =>
    (points_close wall.start other.start tolerance &&
       points_close wall.stop other.stop tolerance) ||
    (points_close wall.start other.stop tolerance &&
       points_close wall.stop other.start tolerance))

/-- `sorted(building.stories, key=lambda s: s.elevation)` — a stable sort,
rendered as stable `insertionSort` with `≤` on elevations. -/
def sortedByElevation (stories : List Story) : List Story :=
  stories.insertionSort (fun a b => a.elevation ≤ b.elevation)

/-- `validate_bearing_wall_alignment`: each load-bearing wall of the upper
story of every elevation-adjacent pair must have an aligned load-bearing wall
below. -/
def validate_bearing_wall_alignment (building : Building) (tolerance : ℚ) :
    List ValidationError :=
  let stories := sortedByElevation building.stories
  (stories.zip stories.tail).flatMap (fun lu =>
    let lower := lu.1
    let upper := lu.2
    let upper_bearing := upper.walls.filter (fun w => w.load_bearing)
    let lower_bearing := lower.walls.filter (fun w => w.load_bearing)
    upper_bearing.filterMap (fun wall =>
      if has_aligned_wall wall lower_bearing tolerance then none
      else
        some
          { severity := "error", element_type := "Wall"
            element_id := wall.global_id, message := "bearing-unaligned" }))

/-! ## Building-code validators (`validators/codes.py`) -/

/-- `validate_corridor_width` (codes.py): every wall named `…Corridor South…`
against every wall named `…Corridor North…` — note: *no* suffix matching. -/
def validate_corridor_width (building : Building) (min_width : ℚ) :
    List ValidationError :=
  building.stories.flatMap (fun story =>
    let south_walls := story.walls.filter (fun w => strContains w.name "Corridor South")
    let north_walls := story.walls.filter (fun w => strContains w.name "Corridor North")
    south_walls.flatMap (fun sw =>
      north_walls.filterMap (fun nw =>
        let sy := (sw.start.y + sw.stop.y) / 2
        let ny := (nw.start.y + nw.stop.y) / 2
        let corridor_width := |ny - sy|
        let clear_width := corridor_width - sw.thickness / 2 - nw.thickness / 2
        if clear_width < min_width - 1 / 100 then
          some
            { severity := "error", element_type := "Corridor"
              element_id := sw.global_id, message := "corridor-width" }
        else none)))

/-! ## Phase-3 corridor validators (`validators/phases.py`, E021/E022/W020/E023) -/

/-- `MIN_CORRIDOR_WIDTH` (OIB RL 4). -/
def MIN_CORRIDOR_WIDTH : ℚ := 6 / 5

/-- Walls whose (lowered) name contains `"corridor"`. -/
def corridorWallsOf (st : Story) : List Wall :=
  st.walls.filter (fun w => strContains (pyLower w.name) "corridor")

/-- Last whitespace-separated word of a name, lowered —
`name.split()[-1].lower()` (names reaching this always contain `corridor`,
hence split nonempty; `""` is the never-reached default). -/
def lastWordLower (s : String) : String :=
  pyLower ((pySplit s).getLast?.getD "")

/-- E021 block of `validate_phase3_corridor`: south/north corridor wall pairs
*sharing the positional suffix*, clear width below the minimum. -/
def e021Block (st : Story) : List ValidationError :=
  let cw := corridorWallsOf st
  let south_walls := cw.filter (fun w => strContains (pyLower w.name) "south")
  let north_walls := cw.filter (fun w => strContains (pyLower w.name) "north")
  south_walls.flatMap (fun sw =>
    north_walls.filterMap (fun nw =>
      if lastWordLower sw.name ≠ lastWordLower nw.name then none
      else
        let sy := (sw.start.y + sw.stop.y) / 2
        let ny := (nw.start.y + nw.stop.y) / 2
        let clear_width := |ny - sy| - sw.thickness / 2 - nw.thickness / 2
        if clear_width < MIN_CORRIDOR_WIDTH - 1 / 100 then
          some
            { severity := "error", element_type := "Corridor"
              element_id := sw.global_id, message := "E021" }
        else none))

/-- E022 block: apartments with no entry door at all (by door name). -/
def e022Block (st : Story) : List ValidationError :=
  st.apartments.filterMap (fun apt =>
    let entry_doors := st.doors.filter (fun d =>
      strContains (pyLower d.name) (pyLower apt.name) &&
        strContains (pyLower d.name) "entry")
    if entry_doors = [] then
      some
        { severity := "error", element_type := "Apartment"
          element_id := apt.global_id, message := "E022" }
    else none)

/-- W020 block: total corridor length (sum of wall lengths, halved) versus
1.2 × building width; wall lengths are square roots, hence `sq`. -/
def w020Block (sq : ℚ → ℚ) (st : Story) : List ValidationError :=
  let cw := corridorWallsOf st
  let total_length := (cw.map (fun w => sq (dist2 w.start w.stop))).sum / 2
  if total_length > 0 then
    let building_width := pyMax (st.walls.map (fun w => max w.start.x w.stop.x))
    if total_length > building_width * (6 / 5) then
      [{ severity := "warning", element_type := "Story"
         element_id := st.global_id, message := "W020" }]
    else []
  else []

/-- The corridor x-intervals of E023 (spans of at most 1 cm are vertical
terminators and are skipped). -/
def xIntervals (st : Story) : List (ℚ × ℚ) :=
  (corridorWallsOf st).filterMap (fun w =>
    let x_min := min w.start.x w.stop.x
    let x_max := max w.start.x w.stop.x
    if x_max - x_min > 1 / 100 then some (x_min, x_max) else none)

/-- Python tuple `<=` on pairs of rationals (for `list.sort()`:
lexicographic). -/
def pairLE (a b : ℚ × ℚ) : Prop :=
  a.1 < b.1 ∨ (a.1 = b.1 ∧ a.2 ≤ b.2)

instance (a b : ℚ × ℚ) : Decidable (pairLE a b) := by
  unfold pairLE; infer_instance

/-- Merge sorted intervals into maximal runs (touching tolerance 0.1). -/
def mergeRuns : List (ℚ × ℚ) → List (ℚ × ℚ)
  | [] => []
  | x :: xs =>
      xs.foldl
        (fun acc p =>
          match acc.getLast? with
          | none => [p]
          | some l =>
              if p.1 ≤ l.2 + 1 / 10 then acc.dropLast ++ [(l.1, max l.2 p.2)]
              else acc ++ [p])
        [x]

/-- The merged corridor runs of a story. -/
def mergedRuns (st : Story) : List (ℚ × ℚ) :=
  mergeRuns ((xIntervals st).insertionSort pairLE)

/-- Core x-position: centroid of the first staircase's outline, if any. -/
def coreX (st : Story) : Option ℚ :=
  match st.staircases with
  | [] => none
  | sc :: _ =>
      let verts := sc.outline.vertices
      some ((verts.map (fun v => v.x)).sum / (verts.length : ℚ))

/-- First index satisfying a predicate, starting the count at `i` — the
`for idx, (lo, hi) in enumerate(...): ... break` pattern. -/
def firstIdxFrom {α : Type} (p : α → Bool) : List α → ℕ → Option ℕ
  | [], _ => none
  | a :: l, i => if p a then some i else firstIdxFrom p l (i + 1)

/-- Index of the merged run holding the core (± 1.0 m), if any. -/
def coreIntervalIdx (st : Story) : Option ℕ :=
  (coreX st).bind (fun cx =>
    firstIdxFrom (fun r => decide (r.1 - 1 ≤ cx) && decide (cx ≤ r.2 + 1))
      (mergedRuns st) 0)

/-- World x-position of a door on its host wall (E023):
`host.start.x + dx * position / length` when the length is positive. -/
def doorWorldX (sq : ℚ → ℚ) (host : Wall) (door : Door) : ℚ :=
  let dx := host.stop.x - host.start.x
  let dy := host.stop.y - host.start.y
  let length := sq (dx ^ 2 + dy ^ 2)
  if length > 0 then host.start.x + dx * door.position / length
  else host.start.x

/-- Index of the merged run a door x-position falls on (± 0.1 m), if any. -/
def doorIntervalIdx (runs : List (ℚ × ℚ)) (door_x : ℚ) : Option ℕ :=
  firstIdxFrom
    (fun r => decide (r.1 - 1 / 10 ≤ door_x) && decide (door_x ≤ r.2 + 1 / 10))
    runs 0

/-- Entry doors of an apartment that sit on corridor walls (E023). -/
def entryDoors (st : Story) (apt : Apartment) : List Door :=
  let corridor_wall_ids := (corridorWallsOf st).map (fun w => w.global_id)
  st.doors.filter (fun d =>
    decide (d.wall_id ∈ corridor_wall_ids) &&
      strContains (pyLower d.name) (pyLower apt.name) &&
      strContains (pyLower d.name) "entry")

/-- E023 verdict for one entry door: `none` when the door needs no error;
otherwise the error to emit.  Mirrors the source's
`if door_interval_idx is None: … elif core_interval_idx is not None and
door_interval_idx != core_interval_idx: …`. -/
def e023DoorError (sq : ℚ → ℚ) (st : Story) (runs : List (ℚ × ℚ))
    (coreIdx : Option ℕ) (apt : Apartment) (door : Door) :
    Option ValidationError :=
  match st.walls.find? (fun w => w.global_id = door.wall_id) with
  | none => none
  | some host =>
      let door_x := doorWorldX sq host door
      match doorIntervalIdx runs door_x with
      | none =>
          some
            { severity := "error", element_type := "Apartment"
              element_id := apt.global_id, message := "E023-outside" }
      | some di =>
          match coreIdx with
          | some ci =>
              if di ≠ ci then
                some
                  { severity := "error", element_type := "Apartment"
                    element_id := apt.global_id, message := "E023-disconnected" }
              else none
          | none => none

/-- E023 block: corridor continuity — runs, core run, entry-door runs. -/
def e023Block (sq : ℚ → ℚ) (st : Story) : List ValidationError :=
  if corridorWallsOf st ≠ [] ∧ st.apartments ≠ [] then
    if xIntervals st ≠ [] then
      let runs := mergedRuns st
      let coreIdx := coreIntervalIdx st
      st.apartments.flatMap (fun apt =>
        (entryDoors st apt).filterMap (e023DoorError sq st runs coreIdx apt))
    else []
  else []

/-- `validate_phase3_corridor` (E021, E022, W020, E023): per story, the
no-corridor short-circuit, else the four blocks in source order. -/
def validate_phase3_corridor (sq : ℚ → ℚ) (building : Building) :
    List ValidationError :=
  building.stories.flatMap (fun st =>
    if corridorWallsOf st = [] ∧ st.apartments ≠ [] then
      [{ severity := "error", element_type := "Story"
         element_id := st.global_id, message := "E022-no-corridor" }]
    else e021Block st ++ e022Block st ++ w020Block sq st ++ e023Block sq st)

/-! ## Interior enclosure (`validators/phases.py`, E070/E071/E041b)

`validate_interior_enclosure` can raise `IndexError` (Python
`space.name.lower().split()[-1]` on an empty split); the embedding therefore
returns `Except Unit _`, with `.error ()` marking the raised exception. -/

/-- `_edge_has_wall`: some wall runs along the given bounding-box edge
(centerline within `tolerance`, covering at least half the edge). -/
def edge_has_wall (st : Story) (coord startC endC : ℚ) (horizontal : Bool)
    (tolerance : ℚ) : Bool :=
  st.walls.any (fun wall =>
    if horizontal then
      let wall_y := (wall.start.y + wall.stop.y) / 2
      if |wall_y - coord| > tolerance then false
      else
        let wall_min_x := min wall.start.x wall.stop.x
        let wall_max_x := max wall.start.x wall.stop.x
        let overlap_start := max wall_min_x startC
        let overlap_end := min wall_max_x endC
        let edge_length := endC - startC
        decide (edge_length > 0) &&
          decide ((overlap_end - overlap_start) / edge_length ≥ 1 / 2)
    else
      let wall_x := (wall.start.x + wall.stop.x) / 2
      if |wall_x - coord| > tolerance then false
      else
        let wall_min_y := min wall.start.y wall.stop.y
        let wall_max_y := max wall.start.y wall.stop.y
        let overlap_start := max wall_min_y startC
        let overlap_end := min wall_max_y endC
        let edge_length := endC - startC
        decide (edge_length > 0) &&
          decide ((overlap_end - overlap_start) / edge_length ≥ 1 / 2))

/-- The E070 `any(...)` generator: for each (lowered) apartment door name,
`room_type_str in name or space.name.lower().split()[-1] in name`;
the second disjunct raises `IndexError` when the split is empty. -/
def e070HasDoor (roomTypeStr : String) (lastW : Option String) :
    List String → Except Unit Bool
  | [] => .ok false
  | n :: ns =>
      if strContains n roomTypeStr then .ok true
      else
        match lastW with
        | none => .error ()
        | some w =>
            if strContains n w then .ok true
            else e070HasDoor roomTypeStr lastW ns

/-- E070 loop over an apartment's spaces (bedroom / bathroom / toilet must
have a door named after the room). -/
def e070Spaces (doorNames : List String) : List Space → Except Unit (List ValidationError)
  | [] => .ok []
  | sp :: rest =>
      if sp.room_type = .bedroom ∨ sp.room_type = .bathroom ∨ sp.room_type = .toilet then
        match e070HasDoor sp.room_type.value ((pySplit (pyLower sp.name)).getLast?) doorNames with
        | .error e => .error e
        | .ok hasDoor =>
            (e070Spaces doorNames rest).map (fun errs =>
              (if hasDoor then []
               else
                 [{ severity := "error", element_type := "Space"
                    element_id := sp.global_id, message := "E070" }]) ++ errs)
      else e070Spaces doorNames rest

/-- E071 check for one bathroom: bounding-box edges without a covering wall. -/
def e071Bath (st : Story) (bath : Space) : Option ValidationError :=
  let xs := bath.boundary.vertices.map (fun v => v.x)
  let ys := bath.boundary.vertices.map (fun v => v.y)
  let b_min_x := pyMin xs
  let b_max_x := pyMax xs
  let b_min_y := pyMin ys
  let b_max_y := pyMax ys
  let missing :=
    [edge_has_wall st b_min_y b_min_x b_max_x true (2 / 10),
     edge_has_wall st b_max_y b_min_x b_max_x true (2 / 10),
     edge_has_wall st b_min_x b_min_y b_max_y false (2 / 10),
     edge_has_wall st b_max_x b_min_y b_max_y false (2 / 10)].any (fun h => !h)
  if missing then
    some
      { severity := "error", element_type := "Space"
        element_id := bath.global_id, message := "E071" }
  else none

/-- `validate_interior_enclosure` for one apartment: E070, then E071, then
E041b (bathroom under 5 m²).  (The apartment bounding box the source computes
first is dead code — never read — and is omitted.) -/
def enclosureApt (st : Story) (apt : Apartment) : Except Unit (List ValidationError) :=
  let apt_doors := st.doors.filter (fun d =>
    strContains (pyLower d.name) (pyLower apt.name))
  let doorNames := (apt_doors.map (fun d => pyLower d.name)).dedup
  match e070Spaces doorNames apt.spaces with
  | .error e => .error e
  | .ok e070s =>
      let bathrooms := apt.get_space_by_type .bathroom
      let e071s := bathrooms.filterMap (e071Bath st)
      let e041s := bathrooms.filterMap (fun bath =>
        if bath.area < 5 - 1 / 100 then
          some
            { severity := "warning", element_type := "Space"
              element_id := bath.global_id, message := "E041b" }
        else none)
      .ok (e070s ++ e071s ++ e041s)

/-- Sequence a fallible per-element computation over a list, concatenating
results (Python exception propagation). -/
def exceptFoldList {α : Type} (f : α → Except Unit (List ValidationError)) :
    List α → Except Unit (List ValidationError)
  | [] => .ok []
  | a :: as =>
      match f a with
      | .error e => .error e
      | .ok xs => (exceptFoldList f as).map (fun ys => xs ++ ys)

/-- `validate_interior_enclosure` over the whole building. -/
def validate_interior_enclosure (building : Building) :
    Except Unit (List ValidationError) :=
  exceptFoldList (fun st => exceptFoldList (enclosureApt st) st.apartments)
    building.stories

/-! ## C8 proof-side definitions and fixtures -/

/-- Termination measure of the BFS loop: unvisited universe names plus queue
length. -/
def bfsMeasure (U : List String) (vq : List String × List String) : ℕ :=
  U.countP (fun x => decide (x ∉ vq.1)) + vq.2.length

/-- BFS loop invariant: every visited node is still queued, or all its
neighbors are visited. -/
def bfsInv (g : ConnectivityGraph) (vq : List String × List String) : Prop :=
  ∀ x ∈ vq.1, x ∈ vq.2 ∨ ∀ nb ∈ neighborNames g x, nb ∈ vq.1

/-- Graph with no nodes and no edges. -/
def c8EmptyGraph : ConnectivityGraph :=
  { storey := "S", nodes := [], edges := [] }

/-- Two rooms joined by one door. -/
def c8PairGraph : ConnectivityGraph :=
  { storey := "S"
    nodes := [("A", { name := "A", node_type := "room", area := 10, storey := "S" }),
              ("B", { name := "B", node_type := "room", area := 12, storey := "S" })]
    edges := [{ door_name := "d1", door_width := 1, from_node := "A", to_node := "B" }] }

/-! ## Proof-side helper definitions -/

/-- One shoelace term: the cross product `p.x * q.y - q.x * p.y`. -/
def polyCross (p q : Point2D) : ℚ :=
  p.x * q.y - q.x * p.y

/-- The signed shoelace sum of a vertex list (before `abs` and halving). -/
def shoelace (vs : List Point2D) : ℚ :=
  ∑ i ∈ Finset.range vs.length,
    polyCross (polyVertex vs i) (polyVertex vs ((i + 1) % vs.length))

/-- Specification form of C5's alignment relation, phrased from the claim:
the walls' endpoints match within `tol` in either direction (start-to-start
with end-to-end, or start-to-end with end-to-start), on squared distances. -/
def specAligned (tol : ℚ) (w other : Wall) : Prop :=
  (dist2 w.start other.start ≤ tol ^ 2 ∧ dist2 w.stop other.stop ≤ tol ^ 2) ∨
    (dist2 w.start other.stop ≤ tol ^ 2 ∧ dist2 w.stop other.start ≤ tol ^ 2)

instance (tol : ℚ) (w other : Wall) : Decidable (specAligned tol w other) := by
  unfold specAligned; infer_instance

/-! ## Concrete fixtures (used by counterexamples and witnesses) -/

/-- A load-bearing wall fixture for the C5 scenarios. -/
def mkBearingWall (gid : String) (sx sy ex ey : ℚ) : Wall :=
  { global_id := gid, name := gid, tag := gid, start := ⟨sx, sy⟩
    stop := ⟨ex, ey⟩, height := 3, thickness := 1 / 4
    load_bearing := true, is_external := false }

/-- A story fixture with the given walls only. -/
def mkWallStory (gid : String) (elev : ℚ) (walls : List Wall) : Story :=
  { global_id := gid, name := gid, elevation := elev, height := 3
    walls := walls, slabs := [], doors := [], windows := [], staircases := []
    virtual_elements := [], spaces := [], apartments := [] }

/-- C5 scenario: ground bearing wall `(0,0)→(10,0)`, upper bearing wall
`(0,2)→(10,2)` (shifted 2 m). -/
def c5ShiftedBuilding : Building :=
  { global_id := "b-c5s", name := "c5 shifted"
    stories :=
      [mkWallStory "GF" 0 [mkBearingWall "wallG" 0 0 10 0],
       mkWallStory "1F" 3 [mkBearingWall "wallU" 0 2 10 2]] }

/-- C5 scenario: ground bearing wall `(0,0)→(10,0)`, upper bearing wall
`(10,0)→(0,0)` (same endpoints, reversed orientation). -/
def c5ReversedBuilding : Building :=
  { global_id := "b-c5r", name := "c5 reversed"
    stories :=
      [mkWallStory "GF" 0 [mkBearingWall "wallG" 0 0 10 0],
       mkWallStory "1F" 3 [mkBearingWall "wallU" 10 0 0 0]] }

/-- A horizontal wall fixture. -/
def mkHWall (gid nm : String) (x1 x2 y : ℚ) : Wall :=
  { global_id := gid, name := nm, tag := "", start := ⟨x1, y⟩
    stop := ⟨x2, y⟩, height := 3, thickness := 1 / 10
    load_bearing := false, is_external := false }

/-- C7 counterexample: a `Corridor South West` wall at `y = 0` and a
`Corridor North East` wall at `y = 1` — different positional suffixes,
clear width `1 − 0.05 − 0.05 = 0.9 < 1.19`. -/
def c7Building : Building :=
  { global_id := "b-c7", name := "c7"
    stories :=
      [mkWallStory "GF" 0
        [mkHWall "sw" "Corridor South West" 0 8 0,
         mkHWall "nw" "Corridor North East" 0 8 1]] }

/-- Specification form of the E021 corridor clear-width check (phrased from
the claim): south/north corridor wall pairs *sharing the positional suffix*
whose clear width `|Δy| − half-thicknesses` is below the 1.20 m minimum with
1 cm tolerance. -/
def specE021 (b : Building) : List ValidationError :=
  b.stories.flatMap (fun st =>
    if corridorWallsOf st = [] ∧ st.apartments ≠ [] then []
    else
      ((corridorWallsOf st).filter
          (fun w => strContains (pyLower w.name) "south")).flatMap (fun sw =>
        ((corridorWallsOf st).filter
            (fun w => strContains (pyLower w.name) "north")).filterMap (fun nw =>
          if lastWordLower sw.name = lastWordLower nw.name ∧
              |(nw.start.y + nw.stop.y) / 2 - (sw.start.y + sw.stop.y) / 2| -
                  sw.thickness / 2 - nw.thickness / 2 <
                MIN_CORRIDOR_WIDTH - 1 / 100 then
            some
              { severity := "error", element_type := "Corridor"
                element_id := sw.global_id, message := "E021" }
          else none)))

/-! ## C6 spec-side definitions and fixtures -/

/-- Spec form of the E023 per-door verdict (with the code's run tolerances):
the door's host wall is found, and its x-position is off every merged run
(± 0.1 m) or on a run different from the core's run (when a core run
exists). -/
def e023DoorBad (sq : ℚ → ℚ) (st : Story) (door : Door) : Bool :=
  match st.walls.find? (fun w => w.global_id = door.wall_id) with
  | none => false
  | some host =>
      match doorIntervalIdx (mergedRuns st) (doorWorldX sq host door),
          coreIntervalIdx st with
      | none, _ => true
      | some di, some ci => decide (di ≠ ci)
      | some _, none => false

/-- Spec form of the number of E023 errors naming apartment id `aid`. -/
def specE023Count (sq : ℚ → ℚ) (st : Story) (aid : String) : ℕ :=
  if corridorWallsOf st ≠ [] ∧ st.apartments ≠ [] ∧ xIntervals st ≠ [] then
    ((st.apartments.filter (fun a => a.global_id == aid)).map
      (fun apt => ((entryDoors st apt).filter (e023DoorBad sq st)).length)).sum
  else 0

/-- The number of E023 errors of a story naming apartment id `aid`. -/
def e023Count (sq : ℚ → ℚ) (st : Story) (aid : String) : ℕ :=
  ((e023Block sq st).filter (fun e => e.element_id == aid)).length

/-- An apartment fixture (unit-triangle boundary, no rooms). -/
def mkApt (gid nm : String) : Apartment :=
  { global_id := gid, name := nm, tag := ""
    boundary := ⟨[⟨0, 0⟩, ⟨1, 0⟩, ⟨0, 1⟩]⟩, spaces := [] }

/-- A door fixture. -/
def mkDoor (gid nm wid : String) (pos w : ℚ) : Door :=
  { global_id := gid, name := nm, tag := "", wall_id := wid
    position := pos, width := w, height := 2 }

/-- A staircase fixture with centroid `(2, 5)`. -/
def c6Stair : Staircase :=
  { global_id := "st1", name := "Stair", tag := ""
    outline := ⟨[⟨1, 4⟩, ⟨3, 4⟩, ⟨3, 6⟩, ⟨1, 6⟩]⟩
    width := 6 / 5, riser_height := 7 / 40, tread_length := 28 / 100 }

/-- C6 scenario story: corridor runs `[0,8]` and `[14,20]`, core at `x = 2`
(first run), apartment entries at `x = 4` (run 1) and `x = 17` (run 2). -/
def c6Story : Story :=
  { global_id := "st-c6", name := "GF", elevation := 0, height := 3
    walls := [mkHWall "w1" "Corridor South A" 0 8 0,
              mkHWall "w2" "Corridor South B" 14 20 0]
    slabs := [], doors := [mkDoor "d1" "A1 Entry" "w1" 4 1,
                           mkDoor "d2" "A2 Entry" "w2" 3 1]
    windows := [], staircases := [c6Stair], virtual_elements := []
    spaces := [], apartments := [mkApt "apt-a1" "A1", mkApt "apt-a2" "A2"] }

/-- A vertical corridor wall at `x = 8.05` (span below 1 cm, so it
contributes no x-interval). -/
def c6TolWallV : Wall :=
  { global_id := "w3", name := "Corridor West End", tag := ""
    start := ⟨805 / 100, 0⟩, stop := ⟨805 / 100, 3 / 2⟩, height := 3
    thickness := 1 / 10, load_bearing := false, is_external := false }

/-- The entry door hosted on the vertical wall; its world x-position is
`8.05`, strictly outside the single run `[0, 8]`. -/
def c6TolDoor : Door := mkDoor "d1" "A1 Entry" "w3" 1 (9 / 10)

/-- C6 counterexample story: single run `[0, 8]`, core at `x = 2`, apartment
entry at `x = 8.05` — off the run but within the code's 0.1 m tolerance. -/
def c6TolStory : Story :=
  { global_id := "st-c6t", name := "GF", elevation := 0, height := 3
    walls := [mkHWall "w1" "Corridor South A" 0 8 0, c6TolWallV]
    slabs := [], doors := [c6TolDoor]
    windows := [], staircases := [c6Stair], virtual_elements := []
    spaces := [], apartments := [mkApt "apt-a1" "A1"] }

/-! ### C1 / C10 fixtures -/

/-- An exterior wall of the C1 box `[0,20] × [0,10]`. -/
def c1ExtWall (gid nm : String) (sx sy ex ey : ℚ) : Wall :=
  { global_id := gid, name := nm, tag := "", start := ⟨sx, sy⟩
    stop := ⟨ex, ey⟩, height := 3, thickness := 3 / 10
    load_bearing := true, is_external := true }

/-- The interior host wall `(5,5) → (15,5)` of the C1 scenario (length `10`,
a perfect square radicand for `ratSqrt`). -/
def c1Wall : Wall :=
  { global_id := "wInner", name := "Inner", tag := "", start := ⟨5, 5⟩
    stop := ⟨15, 5⟩, height := 3, thickness := 1 / 10
    load_bearing := false, is_external := false }

/-- The C1 door, centered at `(10, 5)` on the interior wall. -/
def c1Door : Door :=
  { global_id := "d1", name := "D1", tag := "", wall_id := "wInner"
    position := 9 / 2, width := 1, height := 2 }

/-- The single room `RoomA`, a rectangle on the `+normal` side of the
interior wall. -/
def c1Space : Space :=
  { global_id := "spA", name := "RoomA", tag := "", room_type := RoomType.living
    boundary := ⟨[⟨5, 5⟩, ⟨15, 5⟩, ⟨15, 8⟩, ⟨5, 8⟩]⟩ }

/-- C1 story: a box of exterior walls and one interior wall with a door whose
`−normal` probe point `(10, 4.7)` lies in no zone yet inside the building. -/
def c1Story : Story :=
  { global_id := "st-c1", name := "L0", elevation := 0, height := 3
    walls := [c1ExtWall "e1" "Ext South" 0 0 20 0,
              c1ExtWall "e2" "Ext East" 20 0 20 10,
              c1ExtWall "e3" "Ext North" 20 10 0 10,
              c1ExtWall "e4" "Ext West" 0 10 0 0,
              c1Wall]
    slabs := [], doors := [c1Door], windows := [], staircases := []
    virtual_elements := [], spaces := []
    apartments := [{ global_id := "apt1", name := "A1", tag := ""
                     boundary := ⟨[⟨0, 0⟩, ⟨20, 0⟩, ⟨20, 10⟩, ⟨0, 10⟩]⟩
                     spaces := [c1Space] }] }

/-- The single zone collected from `c1Story` (the value `zonesOfStory`
computes for it). -/
def c1Zone : Zone :=
  { name := "RoomA", zone_type := "living"
    vertices := [(5, 5), (15, 5), (15, 8), (5, 8)]
    area := polygon_area ⟨[⟨5, 5⟩, ⟨15, 5⟩, ⟨15, 8⟩, ⟨5, 8⟩]⟩ }

/-- C10 witness building: a single completely empty story. -/
def c10Building : Building :=
  { global_id := "b-c10", name := "c10"
    stories := [mkWallStory "L0" 0 []] }

/-! ### C2 / C3 fixtures and frame-effect helper definitions -/

/-- A wall fixture with explicit tag and endpoints. -/
def c2Wall (gid tg : String) (sx sy ex ey : ℚ) : Wall :=
  { global_id := gid, name := gid, tag := tg, start := ⟨sx, sy⟩
    stop := ⟨ex, ey⟩, height := 3, thickness := 1 / 10
    load_bearing := false, is_external := false }

/-- C2 counterexample story: three near-coincident wall starts at `x = 0`,
`0.015`, `0.03` (tolerance `0.02`).  The in-place first pass chases each start
onto a neighbour that itself moves later, so a second pass still snaps. -/
def c2Story : Story :=
  { global_id := "st-c2", name := "GF", elevation := 0, height := 3
    walls := [c2Wall "w1" "W1" 0 0 0 5,
              c2Wall "w2" "W2" (3 / 200) 0 5 (-5),
              c2Wall "w3" "W3" (3 / 100) 0 (-5) (-5)]
    slabs := [], doors := [], windows := [], staircases := []
    virtual_elements := [], spaces := [], apartments := [] }

/-- The story the first snap pass turns `c2Story` into: each wall start moved
onto the *pre-move* position of its snap target. -/
def c2Snapped : Story :=
  { global_id := "st-c2", name := "GF", elevation := 0, height := 3
    walls := [c2Wall "w1" "W1" (3 / 200) 0 0 5,
              c2Wall "w2" "W2" (3 / 100) 0 5 (-5),
              c2Wall "w3" "W3" (3 / 200) 0 (-5) (-5)]
    slabs := [], doors := [], windows := [], staircases := []
    virtual_elements := [], spaces := [], apartments := [] }

/-- A story with a single wall — nothing to snap to. -/
def c2CleanStory : Story :=
  { global_id := "st-c2c", name := "GF", elevation := 0, height := 3
    walls := [c2Wall "w1" "W1" 0 0 0 5]
    slabs := [], doors := [], windows := [], staircases := []
    virtual_elements := [], spaces := [], apartments := [] }

/-- C3 counterexample story: one wall with an *empty* tag, so `ensure_tags`
(run by both `find_connections` and `snap_endpoints`) rewrites it. -/
def c3Story : Story :=
  { global_id := "st-c3", name := "GF", elevation := 0, height := 3
    walls := [c2Wall "w1" "" 0 0 0 5]
    slabs := [], doors := [], windows := [], staircases := []
    virtual_elements := [], spaces := [], apartments := [] }

/-- Erase every element tag of a story (the fields `ensure_tags` may write). -/
def stripTags (st : Story) : Story :=
  { st with
    walls := st.walls.map (fun w => { w with tag := "" })
    doors := st.doors.map (fun d => { d with tag := "" })
    windows := st.windows.map (fun w => { w with tag := "" })
    staircases := st.staircases.map (fun s => { s with tag := "" })
    virtual_elements := st.virtual_elements.map (fun v => { v with tag := "" })
    spaces := st.spaces.map (fun s => { s with tag := "" })
    apartments := st.apartments.map (fun a => { a with tag := "" }) }

/-- Erase a wall's endpoints (the fields snapping may write). -/
def clearSE (w : Wall) : Wall :=
  { w with start := ⟨0, 0⟩, stop := ⟨0, 0⟩ }

/-- Erase every wall's endpoints in a story. -/
def clearWallsSE (st : Story) : Story :=
  { st with walls := st.walls.map clearSE }

/-! ### C4 fixture -/

/-- A bedroom space with an *empty* name. -/
def c4Space : Space :=
  { global_id := "sp-bed", name := "", tag := "", room_type := RoomType.bedroom
    boundary := ⟨[⟨0, 0⟩, ⟨3, 0⟩, ⟨3, 3⟩, ⟨0, 3⟩]⟩ }

/-- C4 story: the apartment has a matching entry door whose lowered name does
not contain `"bedroom"`, so E070 must fall through to
`space.name.lower().split()[-1]` — which indexes an empty list. -/
def c4Story : Story :=
  { global_id := "st-c4", name := "GF", elevation := 0, height := 3
    walls := [], slabs := [], doors := [mkDoor "d1" "A1 Entry" "w1" 1 1]
    windows := [], staircases := [], virtual_elements := []
    spaces := []
    apartments := [{ global_id := "apt1", name := "A1", tag := ""
                     boundary := ⟨[⟨0, 0⟩, ⟨10, 0⟩, ⟨10, 10⟩, ⟨0, 10⟩]⟩
                     spaces := [c4Space] }] }

/-- C4 building. -/
def c4Building : Building :=
  { global_id := "b-c4", name := "c4", stories := [c4Story] }

end ArchicadBuilder

namespace ArchicadBuilder

/-! ## Helper lemmas -/

theorem polygon_area_eq_shoelace (vs : List Point2D) :
    polygon_area ⟨vs⟩ = |shoelace vs| / 2 := rfl

theorem polyCross_antisymm (p q : Point2D) : polyCross p q = -polyCross q p := by
  unfold polyCross; ring

/-- Successor with wrap-around on the index type of a nonempty list. -/
def finWrapSucc {n : ℕ} (i : Fin n) : Fin n :=
  ⟨((i : ℕ) + 1) % n, Nat.mod_lt _ i.pos⟩

theorem finWrapSucc_eq_add_one {n : ℕ} [NeZero n] (i : Fin n) :
    finWrapSucc i = i + 1 := by
  apply Fin.ext
  simp only [finWrapSucc, Fin.add_def]
  have h1v : ((1 : Fin n) : ℕ) = 1 % n := Fin.val_one' n
  rw [h1v]
  exact (Nat.ModEq.add_left _ (Nat.mod_modEq 1 n)).symm

/-- The shoelace sum over `Fin`-indexed vertices with wrap-around
successor. -/
theorem shoelace_eq_fin_sum (vs : List Point2D) :
    shoelace vs =
      ∑ i : Fin vs.length, polyCross (vs.get i) (vs.get (finWrapSucc i)) := by
  classical
  rw [shoelace, ← Fin.sum_univ_eq_sum_range]
  refine Finset.sum_congr rfl (fun i _ => ?_)
  have h1 : polyVertex vs i.val = vs.get i := by
    rw [polyVertex, List.getD_eq_getElem _ _ i.isLt, List.get_eq_getElem]
  have hmod : ((i : ℕ) + 1) % vs.length < vs.length :=
    Nat.mod_lt _ i.pos
  have h2 : polyVertex vs (((i : ℕ) + 1) % vs.length) = vs.get (finWrapSucc i) := by
    rw [polyVertex, List.getD_eq_getElem _ _ hmod, List.get_eq_getElem]
    rfl
  rw [h1, h2]

theorem natModEq_addA (a k n : ℕ) : (a + k) % n = (a + k % n) % n :=
  (Nat.ModEq.add_left a (Nat.mod_modEq k n)).symm

theorem natModEq_addB (a k n : ℕ) :
    ((a + 1) % n + k) % n = ((a + k % n) % n + 1 % n) % n := by
  have h1 : ((a + 1) % n + k) ≡ ((a + 1) + k) [MOD n] :=
    Nat.ModEq.add_right k (Nat.mod_modEq _ n)
  have s1 : ((a + k % n) % n + 1 % n) ≡ ((a + k % n) + 1 % n) [MOD n] :=
    Nat.ModEq.add_right _ (Nat.mod_modEq _ n)
  have s2 : ((a + k % n) + 1 % n) ≡ ((a + k) + 1 % n) [MOD n] :=
    Nat.ModEq.add_right _ (Nat.ModEq.add_left a (Nat.mod_modEq k n))
  have s3 : ((a + k) + 1 % n) ≡ ((a + k) + 1) [MOD n] :=
    Nat.ModEq.add_left _ (Nat.mod_modEq 1 n)
  have heq : a + 1 + k = (a + k) + 1 := by omega
  exact h1.trans (heq ▸ ((s1.trans s2).trans s3).symm)

/-- The shoelace sum is invariant under any cyclic rotation of the vertex
list. -/
theorem shoelace_rotate (vs : List Point2D) (hn : vs.length ≠ 0) (k : ℕ) :
    shoelace (vs.rotate k) = shoelace vs := by
  classical
  haveI : NeZero vs.length := ⟨hn⟩
  have hpos : 0 < vs.length := Nat.pos_of_ne_zero hn
  have hlen : (vs.rotate k).length = vs.length := List.length_rotate vs k
  have hkF : k % vs.length < vs.length := Nat.mod_lt _ hpos
  have lhs_eq : shoelace (vs.rotate k) =
      ∑ i : Fin vs.length,
        polyCross (vs.get (i + ⟨k % vs.length, hkF⟩))
          (vs.get (i + ⟨k % vs.length, hkF⟩ + 1)) := by
    simp only [shoelace]
    rw [hlen, ← Fin.sum_univ_eq_sum_range]
    refine Finset.sum_congr rfl (fun i _ => ?_)
    have hl1 : (i : ℕ) < (vs.rotate k).length := by
      rw [hlen]; exact i.isLt
    have hl2 : ((i : ℕ) + 1) % vs.length < (vs.rotate k).length := by
      rw [hlen]; exact Nat.mod_lt _ hpos
    have hvi : polyVertex (vs.rotate k) (i : ℕ) =
        vs.get (i + ⟨k % vs.length, hkF⟩) := by
      rw [polyVertex, List.getD_eq_getElem _ _ hl1, List.getElem_rotate,
        List.get_eq_getElem]
      congr 1
      rw [Fin.add_def]
      exact natModEq_addA _ k vs.length
    have hvj : polyVertex (vs.rotate k) (((i : ℕ) + 1) % vs.length) =
        vs.get (i + ⟨k % vs.length, hkF⟩ + 1) := by
      rw [polyVertex, List.getD_eq_getElem _ _ hl2, List.getElem_rotate,
        List.get_eq_getElem]
      congr 1
      rw [Fin.add_def, Fin.add_def, Fin.val_mk, Fin.val_one' vs.length]
      exact natModEq_addB _ k vs.length
    rw [hvi, hvj]
  rw [lhs_eq, shoelace_eq_fin_sum vs]
  have hcomp := Equiv.sum_comp
    (Equiv.addRight (⟨k % vs.length, hkF⟩ : Fin vs.length))
    (fun m => polyCross (vs.get m) (vs.get (m + 1)))
  simp only [Equiv.coe_addRight] at hcomp
  rw [hcomp]
  refine Finset.sum_congr rfl (fun i _ => ?_)
  rw [finWrapSucc_eq_add_one]

/-- The shoelace sum changes sign under reversal of the vertex list (stated
for genuine polygons, `3 ≤ length`). -/
theorem shoelace_reverse (vs : List Point2D) (h3 : 3 ≤ vs.length) :
    shoelace vs.reverse = -shoelace vs := by
  classical
  have hn : vs.length ≠ 0 := by omega
  haveI : NeZero vs.length := ⟨hn⟩
  have hpos : 0 < vs.length := Nat.pos_of_ne_zero hn
  have hlen : vs.reverse.length = vs.length := List.length_reverse vs
  have hc2 : vs.length - 2 < vs.length := by omega
  have h1n : 1 % vs.length = 1 := Nat.mod_eq_of_lt (by omega)
  have hIdx2 : ∀ i : Fin vs.length,
      ((⟨vs.length - 2, hc2⟩ : Fin vs.length) - i).val =
        vs.length - 1 - (((i : ℕ) + 1) % vs.length) := by
    intro i
    rw [Fin.sub_def, Fin.val_mk]
    rcases Nat.lt_or_ge (i : ℕ) (vs.length - 1) with hlt | hge
    · have hm : ((i : ℕ) + 1) % vs.length = (i : ℕ) + 1 :=
        Nat.mod_eq_of_lt (by omega)
      have hx : vs.length - (i : ℕ) + (vs.length - 2) =
          (vs.length - 2 - (i : ℕ)) + vs.length := by omega
      rw [hm, hx, Nat.add_mod_right, Nat.mod_eq_of_lt (by omega)]
      omega
    · have hieq : (i : ℕ) = vs.length - 1 := by
        have := i.isLt
        omega
      have hm : ((i : ℕ) + 1) % vs.length = 0 := by
        rw [hieq]
        have hstep : vs.length - 1 + 1 = vs.length := by omega
        rw [hstep, Nat.mod_self]
      have hx : vs.length - (i : ℕ) + (vs.length - 2) = vs.length - 1 := by
        rw [hieq]; omega
      rw [hm, hx, Nat.mod_eq_of_lt (by omega)]
      omega
  have hIdx1 : ∀ i : Fin vs.length,
      ((⟨vs.length - 2, hc2⟩ : Fin vs.length) - i + 1).val =
        vs.length - 1 - (i : ℕ) := by
    intro i
    rw [Fin.add_def, Fin.val_mk, hIdx2 i, Fin.val_one' vs.length, h1n]
    rcases Nat.lt_or_ge (i : ℕ) (vs.length - 1) with hlt | hge
    · have hm : ((i : ℕ) + 1) % vs.length = (i : ℕ) + 1 :=
        Nat.mod_eq_of_lt (by omega)
      rw [hm]
      have he : vs.length - 1 - ((i : ℕ) + 1) + 1 = vs.length - 1 - (i : ℕ) := by
        omega
      rw [he, Nat.mod_eq_of_lt (by omega)]
    · have hieq : (i : ℕ) = vs.length - 1 := by
        have := i.isLt
        omega
      have hm : ((i : ℕ) + 1) % vs.length = 0 := by
        rw [hieq]
        have hstep : vs.length - 1 + 1 = vs.length := by omega
        rw [hstep, Nat.mod_self]
      rw [hm]
      have he : vs.length - 1 - 0 + 1 = vs.length := by omega
      rw [he, Nat.mod_self]
      omega
  have lhs_eq : shoelace vs.reverse =
      ∑ i : Fin vs.length,
        -(polyCross (vs.get ((⟨vs.length - 2, hc2⟩ : Fin vs.length) - i))
            (vs.get ((⟨vs.length - 2, hc2⟩ : Fin vs.length) - i + 1))) := by
    simp only [shoelace]
    rw [hlen, ← Fin.sum_univ_eq_sum_range]
    refine Finset.sum_congr rfl (fun i _ => ?_)
    have hl1 : (i : ℕ) < vs.reverse.length := by
      rw [hlen]; exact i.isLt
    have hl2 : ((i : ℕ) + 1) % vs.length < vs.reverse.length := by
      rw [hlen]; exact Nat.mod_lt _ hpos
    have hvi : polyVertex vs.reverse (i : ℕ) =
        vs.get ((⟨vs.length - 2, hc2⟩ : Fin vs.length) - i + 1) := by
      rw [polyVertex, List.getD_eq_getElem _ _ hl1, List.getElem_reverse,
        List.get_eq_getElem]
      congr 1
      rw [hIdx1 i]
    have hvj : polyVertex vs.reverse (((i : ℕ) + 1) % vs.length) =
        vs.get ((⟨vs.length - 2, hc2⟩ : Fin vs.length) - i) := by
      rw [polyVertex, List.getD_eq_getElem _ _ hl2, List.getElem_reverse,
        List.get_eq_getElem]
      congr 1
      rw [hIdx2 i]
    rw [hvi, hvj, polyCross_antisymm]
  rw [lhs_eq, shoelace_eq_fin_sum vs, Finset.sum_neg_distrib]
  congr 1
  have hcomp := Equiv.sum_comp
    (Equiv.subLeft (⟨vs.length - 2, hc2⟩ : Fin vs.length))
    (fun m => polyCross (vs.get m) (vs.get (m + 1)))
  simp only [Equiv.subLeft_apply] at hcomp
  rw [hcomp]
  refine Finset.sum_congr rfl (fun i _ => ?_)
  rw [finWrapSucc_eq_add_one]

/-- Length of a `filterMap` whose body is an if-then-none-else-some. -/
theorem length_filterMap_ite {α β : Type} (l : List α) (p : α → Bool) (g : α → β) :
    (l.filterMap (fun a => if p a then none else some (g a))).length =
      (l.filter (fun a => !p a)).length := by
  induction l with
  | nil => rfl
  | cons a t ih =>
      by_cases h : p a <;> simp [List.filterMap_cons, List.filter_cons, h, ih]

theorem length_flatMap {α β : Type} (l : List α) (f : α → List β) :
    (l.flatMap f).length = (l.map (fun a => (f a).length)).sum := by
  induction l with
  | nil => rfl
  | cons a t ih => simp [List.flatMap_cons, ih]

/-- `_has_aligned_wall` agrees with the claim's either-direction endpoint
relation (at the claim's tolerance `0.1`). -/
theorem has_aligned_wall_iff_spec (w : Wall) (cands : List Wall) :
    has_aligned_wall w cands (1 / 10) = true ↔
      ∃ other ∈ cands, specAligned (1 / 10) w other := by
  rw [has_aligned_wall, List.any_eq_true]
  refine exists_congr (fun other => and_congr_right (fun _ => ?_))
  rw [specAligned]
  simp only [points_close, sqrtLE, Bool.and_eq_true, Bool.or_eq_true,
    decide_eq_true_eq]
  constructor
  · rintro (⟨⟨_, h1⟩, ⟨_, h2⟩⟩ | ⟨⟨_, h1⟩, ⟨_, h2⟩⟩)
    · exact Or.inl ⟨h1, h2⟩
    · exact Or.inr ⟨h1, h2⟩
  · rintro (⟨h1, h2⟩ | ⟨h1, h2⟩)
    · exact Or.inl ⟨⟨by norm_num, h1⟩, ⟨by norm_num, h2⟩⟩
    · exact Or.inr ⟨⟨by norm_num, h1⟩, ⟨by norm_num, h2⟩⟩

/-- C5: For every pair of elevation-adjacent stories, bearing-wall alignment
emits exactly one error for each load-bearing wall on the upper story that
has no load-bearing wall on the lower story whose endpoints match within
tolerance 0.1 m in either direction, and no error for an upper wall whose
endpoints coincide with a lower wall's endpoints with the orientation
reversed.  In particular, a ground-floor bearing wall (0,0)→(10,0) with an
upper wall (0,2)→(10,2) yields exactly one alignment error, while the upper
wall (10,0)→(0,0) yields zero. -/
theorem C5_bearing_wall_alignment (b : Building) :
    ((validate_bearing_wall_alignment b (1 / 10)).length =
      (((sortedByElevation b.stories).zip (sortedByElevation b.stories).tail).map
        (fun lu =>
          ((lu.2.walls.filter (fun w => w.load_bearing)).filter
            (fun w =>
              decide (¬ ∃ other ∈ lu.1.walls.filter (fun w => w.load_bearing),
                specAligned (1 / 10) w other))).length)).sum) ∧
    (validate_bearing_wall_alignment c5ShiftedBuilding (1 / 10)).length = 1 ∧
    (validate_bearing_wall_alignment c5ReversedBuilding (1 / 10)).length = 0 := by
  refine ⟨?_, ?_, ?_⟩
  · simp only [validate_bearing_wall_alignment]
    rw [length_flatMap]
    congr 1
    refine List.map_congr_left (fun lu _ => ?_)
    rw [length_filterMap_ite]
    congr 1
    refine List.filter_congr (fun w _ => ?_)
    have hiff := has_aligned_wall_iff_spec w
      (lu.1.walls.filter (fun w => w.load_bearing))
    by_cases hex : ∃ other ∈ lu.1.walls.filter (fun w => w.load_bearing),
        specAligned (1 / 10) w other
    · rw [hiff.mpr hex, decide_eq_false (fun hn => hn hex)]
      rfl
    · have hfalse : has_aligned_wall w
          (lu.1.walls.filter (fun w => w.load_bearing)) (1 / 10) = false := by
        cases hb : has_aligned_wall w
            (lu.1.walls.filter (fun w => w.load_bearing)) (1 / 10) with
        | false => rfl
        | true => exact absurd (hiff.mp hb) hex
      rw [hfalse, decide_eq_true hex]
      rfl
  · norm_num [validate_bearing_wall_alignment, sortedByElevation,
      c5ShiftedBuilding, mkWallStory, mkBearingWall, List.insertionSort,
      List.orderedInsert, has_aligned_wall, points_close, sqrtLE, dist2,
      List.filterMap_cons, List.filterMap_nil]
  · norm_num [validate_bearing_wall_alignment, sortedByElevation,
      c5ReversedBuilding, mkWallStory, mkBearingWall, List.insertionSort,
      List.orderedInsert, has_aligned_wall, points_close, sqrtLE, dist2,
      List.filterMap_cons, List.filterMap_nil]

/-- C9: the polygon area (shoelace sum, absolute value) is unchanged by
reversing the vertex order and by any cyclic rotation of the vertex list,
for every polygon with at least 3 vertices. -/
theorem C9_polygon_area_invariance (vs : List Point2D) (h : 3 ≤ vs.length) :
    polygon_area ⟨vs.reverse⟩ = polygon_area ⟨vs⟩ ∧
      ∀ k : ℕ, polygon_area ⟨vs.rotate k⟩ = polygon_area ⟨vs⟩ := by
  constructor
  · rw [polygon_area_eq_shoelace, polygon_area_eq_shoelace,
      shoelace_reverse vs h, abs_neg]
  · intro k
    rw [polygon_area_eq_shoelace, polygon_area_eq_shoelace,
      shoelace_rotate vs (by omega) k]

/-- Witness for C9 at the triangle `[(0,0), (1,0), (0,1)]` with rotation 1. -/
theorem C9_polygon_area_invariance_witness :
    3 ≤ ([⟨0, 0⟩, ⟨1, 0⟩, ⟨0, 1⟩] : List Point2D).length ∧
      polygon_area ⟨([⟨0, 0⟩, ⟨1, 0⟩, ⟨0, 1⟩] : List Point2D).reverse⟩ =
        polygon_area ⟨[⟨0, 0⟩, ⟨1, 0⟩, ⟨0, 1⟩]⟩ ∧
      polygon_area ⟨([⟨0, 0⟩, ⟨1, 0⟩, ⟨0, 1⟩] : List Point2D).rotate 1⟩ =
        polygon_area ⟨[⟨0, 0⟩, ⟨1, 0⟩, ⟨0, 1⟩]⟩ :=
  ⟨by decide,
   (C9_polygon_area_invariance [⟨0, 0⟩, ⟨1, 0⟩, ⟨0, 1⟩] (by decide)).1,
   (C9_polygon_area_invariance [⟨0, 0⟩, ⟨1, 0⟩, ⟨0, 1⟩] (by decide)).2 1⟩

theorem filter_flatMap {α β : Type} (l : List α) (f : α → List β) (p : β → Bool) :
    (l.flatMap f).filter p = l.flatMap (fun a => (f a).filter p) := by
  induction l with
  | nil => rfl
  | cons a t ih => simp [List.flatMap_cons, List.filter_append, ih]

theorem e021Block_messages (st : Story) :
    ∀ e ∈ e021Block st, e.message = "E021" := by
  intro e he
  simp only [e021Block] at he
  obtain ⟨sw, _, hsw⟩ := List.mem_flatMap.mp he
  obtain ⟨nw, _, hnw⟩ := List.mem_filterMap.mp hsw
  split at hnw
  · exact absurd hnw (by simp)
  · split at hnw
    · cases Option.some_inj.mp hnw
      rfl
    · exact absurd hnw (by simp)

theorem e022Block_messages (st : Story) :
    ∀ e ∈ e022Block st, e.message = "E022" := by
  intro e he
  simp only [e022Block] at he
  obtain ⟨apt, _, hf⟩ := List.mem_filterMap.mp he
  split at hf
  · cases Option.some_inj.mp hf
    rfl
  · exact absurd hf (by simp)

theorem w020Block_messages (sq : ℚ → ℚ) (st : Story) :
    ∀ e ∈ w020Block sq st, e.message = "W020" := by
  intro e he
  simp only [w020Block] at he
  split at he
  · split at he
    · rcases List.mem_singleton.mp he with rfl
      rfl
    · exact absurd he (List.not_mem_nil e)
  · exact absurd he (List.not_mem_nil e)

theorem e023DoorError_messages (sq : ℚ → ℚ) (st : Story) (runs : List (ℚ × ℚ))
    (coreIdx : Option ℕ) (apt : Apartment) (door : Door) (e : ValidationError)
    (h : e023DoorError sq st runs coreIdx apt door = some e) :
    e.message = "E023-outside" ∨ e.message = "E023-disconnected" := by
  simp only [e023DoorError] at h
  split at h
  · exact absurd h (by simp)
  · split at h
    · obtain rfl : _ = e := Option.some.inj h
      exact Or.inl rfl
    · split at h
      · split at h
        · obtain rfl : _ = e := Option.some.inj h
          exact Or.inr rfl
        · exact absurd h (by simp)
      · exact absurd h (by simp)

theorem e023Block_messages (sq : ℚ → ℚ) (st : Story) :
    ∀ e ∈ e023Block sq st,
      e.message = "E023-outside" ∨ e.message = "E023-disconnected" := by
  intro e he
  simp only [e023Block] at he
  split at he
  · split at he
    · obtain ⟨apt, _, hapt⟩ := List.mem_flatMap.mp he
      obtain ⟨door, _, hdoor⟩ := List.mem_filterMap.mp hapt
      exact e023DoorError_messages sq st _ _ apt door e hdoor
    · exact absurd he (List.not_mem_nil e)
  · exact absurd he (List.not_mem_nil e)

/-- C7 counterexample: `validate_corridor_width` (codes.py) emits an error
for the pair (`Corridor South West`, `Corridor North East`) even though their
positional suffixes differ — refuting "south/north corridor walls with
different suffixes are never compared". -/
theorem C7_corridor_width_counterexample :
    validate_corridor_width c7Building (6 / 5) =
      [{ severity := "error", element_type := "Corridor"
         element_id := "sw", message := "corridor-width" }] ∧
    lastWordLower "Corridor South West" ≠ lastWordLower "Corridor North East" := by
  constructor
  · have hs1 : strContains "Corridor South West" "Corridor South" = true := by decide
    have hs2 : strContains "Corridor North East" "Corridor South" = false := by decide
    have hn1 : strContains "Corridor South West" "Corridor North" = false := by decide
    have hn2 : strContains "Corridor North East" "Corridor North" = true := by decide
    norm_num [validate_corridor_width, c7Building, mkWallStory, mkHWall,
      List.filter_cons, List.filterMap_cons, hs1, hs2, hn1, hn2]
  · decide

/-- C7 (amended): the phase-3 corridor clear-width check (E021) compares
only south/north corridor wall pairs sharing the positional suffix, emitting
an error exactly when `|Δy| − half-thicknesses < 1.20 − 0.01`; the separate
`validate_corridor_width` in codes.py compares every `Corridor South`/
`Corridor North` wall pair with no suffix filtering (counterexample above). -/
theorem C7_corridor_width_amended (sq : ℚ → ℚ) (b : Building) :
    (validate_phase3_corridor sq b).filter (fun e => e.message == "E021") =
      specE021 b := by
  rw [validate_phase3_corridor, specE021, filter_flatMap]
  refine List.flatMap_congr (fun st _ => ?_)
  by_cases hgate : corridorWallsOf st = [] ∧ st.apartments ≠ []
  · rw [if_pos hgate, if_pos hgate]
    have hb : ("E022-no-corridor" == "E021") = false := by decide
    simp [List.filter_cons, hb]
  · rw [if_neg hgate, if_neg hgate]
    rw [List.filter_append, List.filter_append, List.filter_append]
    have h21 : (e021Block st).filter (fun e => e.message == "E021") = e021Block st :=
      List.filter_eq_self.mpr (fun e he => by
        rw [e021Block_messages st e he]; decide)
    have h22 : (e022Block st).filter (fun e => e.message == "E021") = [] :=
      List.filter_eq_nil_iff.mpr (fun e he => by
        rw [e022Block_messages st e he]; decide)
    have h20 : (w020Block sq st).filter (fun e => e.message == "E021") = [] :=
      List.filter_eq_nil_iff.mpr (fun e he => by
        rw [w020Block_messages sq st e he]; decide)
    have h23 : (e023Block sq st).filter (fun e => e.message == "E021") = [] :=
      List.filter_eq_nil_iff.mpr (fun e he => by
        rcases e023Block_messages sq st e he with hm | hm <;> rw [hm] <;> decide)
    rw [h21, h22, h20, h23, List.append_nil, List.append_nil, List.append_nil]
    simp only [e021Block]
    refine List.flatMap_congr (fun sw _ => ?_)
    refine List.filterMap_congr (fun nw _ => ?_)
    by_cases h1 : lastWordLower sw.name = lastWordLower nw.name
    · rw [if_neg (by simpa using h1)]
      by_cases h2 : |(nw.start.y + nw.stop.y) / 2 - (sw.start.y + sw.stop.y) / 2| -
          sw.thickness / 2 - nw.thickness / 2 < MIN_CORRIDOR_WIDTH - 1 / 100
      · rw [if_pos h2, if_pos ⟨h1, h2⟩]
      · rw [if_neg h2, if_neg (fun hc => h2 hc.2)]
    · rw [if_pos h1, if_neg (fun hc => h1 hc.1)]

theorem length_filterMap_isSome {α β : Type} (l : List α) (f : α → Option β) :
    (l.filterMap f).length = (l.filter (fun a => (f a).isSome)).length := by
  induction l with
  | nil => rfl
  | cons a t ih =>
      cases hfa : f a <;> simp [List.filterMap_cons, List.filter_cons, hfa, ih]

theorem sum_map_ite_filter {α : Type} (l : List α) (p : α → Bool) (f : α → ℕ) :
    (l.map (fun a => if p a then f a else 0)).sum = ((l.filter p).map f).sum := by
  induction l with
  | nil => rfl
  | cons a t ih =>
      by_cases h : p a <;> simp [List.filter_cons, h, ih]

theorem e023DoorError_element_id (sq : ℚ → ℚ) (st : Story)
    (runs : List (ℚ × ℚ)) (coreIdx : Option ℕ) (apt : Apartment) (door : Door)
    (e : ValidationError)
    (h : e023DoorError sq st runs coreIdx apt door = some e) :
    e.element_id = apt.global_id := by
  simp only [e023DoorError] at h
  split at h
  · exact absurd h (by simp)
  · split at h
    · obtain rfl : _ = e := Option.some.inj h
      rfl
    · split at h
      · split at h
        · obtain rfl : _ = e := Option.some.inj h
          rfl
        · exact absurd h (by simp)
      · exact absurd h (by simp)

theorem e023DoorError_isSome (sq : ℚ → ℚ) (st : Story) (apt : Apartment)
    (door : Door) :
    (e023DoorError sq st (mergedRuns st) (coreIntervalIdx st) apt door).isSome =
      e023DoorBad sq st door := by
  simp only [e023DoorError, e023DoorBad]
  cases hfind : st.walls.find? (fun w => w.global_id = door.wall_id) with
  | none => simp [hfind]
  | some host =>
      simp only [hfind]
      cases hidx : doorIntervalIdx (mergedRuns st) (doorWorldX sq host door) with
      | none => simp [hidx]
      | some di =>
          simp only [hidx]
          cases hcore : coreIntervalIdx st with
          | none => simp [hcore]
          | some ci =>
              simp only [hcore]
              by_cases hd : di = ci <;> simp [hd]

/-- The E023 error count of one story for one apartment id agrees with the
spec-side count: exactly one error per bad entry door (given the block's
gating conditions). -/
theorem e023Count_eq_spec (sq : ℚ → ℚ) (st : Story) (aid : String) :
    e023Count sq st aid = specE023Count sq st aid := by
  rw [e023Count, specE023Count]
  simp only [e023Block]
  by_cases hA : corridorWallsOf st ≠ [] ∧ st.apartments ≠ []
  · rw [if_pos hA]
    by_cases hB : xIntervals st ≠ []
    · rw [if_pos hB, if_pos ⟨hA.1, hA.2, hB⟩]
      rw [filter_flatMap, length_flatMap, ← sum_map_ite_filter]
      congr 1
      refine List.map_congr_left (fun apt _ => ?_)
      by_cases hg : (apt.global_id == aid) = true
      · rw [if_pos hg]
        have hkeep :
            ((entryDoors st apt).filterMap
                (e023DoorError sq st (mergedRuns st) (coreIntervalIdx st) apt)).filter
              (fun e => e.element_id == aid) =
            (entryDoors st apt).filterMap
              (e023DoorError sq st (mergedRuns st) (coreIntervalIdx st) apt) := by
          refine List.filter_eq_self.mpr (fun e he => ?_)
          obtain ⟨d, _, hd⟩ := List.mem_filterMap.mp he
          rw [e023DoorError_element_id sq st _ _ apt d e hd]
          exact hg
        rw [hkeep, length_filterMap_isSome]
        congr 1
        exact List.filter_congr (fun d _ => e023DoorError_isSome sq st apt d)
      · rw [if_neg hg]
        have hnil :
            ((entryDoors st apt).filterMap
                (e023DoorError sq st (mergedRuns st) (coreIntervalIdx st) apt)).filter
              (fun e => e.element_id == aid) = [] := by
          refine List.filter_eq_nil_iff.mpr (fun e he => ?_)
          obtain ⟨d, _, hd⟩ := List.mem_filterMap.mp he
          rw [e023DoorError_element_id sq st _ _ apt d e hd]
          exact fun hc => hg hc
        rw [hnil]
        rfl
    · rw [if_neg hB, if_neg (fun hc => hB hc.2.2)]
      rfl
  · rw [if_neg hA, if_neg (fun hc => hA ⟨hc.1, hc.2.1⟩)]
    rfl

/-- The E023-tagged findings of `validate_phase3_corridor` are exactly the
per-story E023 blocks. -/
theorem validator_e023_filter (sq : ℚ → ℚ) (b : Building) :
    (validate_phase3_corridor sq b).filter
      (fun e => e.message == "E023-outside" || e.message == "E023-disconnected") =
      b.stories.flatMap (fun st => e023Block sq st) := by
  rw [validate_phase3_corridor, filter_flatMap]
  refine List.flatMap_congr (fun st _ => ?_)
  by_cases hgate : corridorWallsOf st = [] ∧ st.apartments ≠ []
  · rw [if_pos hgate]
    have h1 : e023Block sq st = [] := by
      simp only [e023Block]
      rw [if_neg (fun hc => hc.1 hgate.1)]
    rw [h1]
    have hb : (("E022-no-corridor" == "E023-outside") ||
        ("E022-no-corridor" == "E023-disconnected")) = false := by decide
    simp [List.filter_cons, hb]
  · rw [if_neg hgate, List.filter_append, List.filter_append, List.filter_append]
    have h21 : (e021Block st).filter
        (fun e => e.message == "E023-outside" || e.message == "E023-disconnected") = [] :=
      List.filter_eq_nil_iff.mpr (fun e he => by
        rw [e021Block_messages st e he]; decide)
    have h22 : (e022Block st).filter
        (fun e => e.message == "E023-outside" || e.message == "E023-disconnected") = [] :=
      List.filter_eq_nil_iff.mpr (fun e he => by
        rw [e022Block_messages st e he]; decide)
    have h20 : (w020Block sq st).filter
        (fun e => e.message == "E023-outside" || e.message == "E023-disconnected") = [] :=
      List.filter_eq_nil_iff.mpr (fun e he => by
        rw [w020Block_messages sq st e he]; decide)
    have h23 : (e023Block sq st).filter
        (fun e => e.message == "E023-outside" || e.message == "E023-disconnected") =
        e023Block sq st :=
      List.filter_eq_self.mpr (fun e he => by
        rcases e023Block_messages sq st e he with hm | hm <;> rw [hm] <;> decide)
    rw [h21, h22, h20, h23]
    simp

/-- C6 (amended): corridor continuity merges corridor-wall x-ranges (spans
over 1 cm) into maximal runs (touching tolerance 0.1 m), locates the run
holding the first staircase's centroid (± 1.0 m), and — provided the story
has corridor walls, apartments, and at least one x-interval — emits exactly
one error per apartment entry door on a corridor wall whose x-position is
off every run *by more than the 0.1 m run tolerance*, or on a run different
from the core's run when a core run exists (no error when no core run is
found).  In the scenario with runs `[0,8]` and `[14,20]`, core at `x = 2`,
and entries at `x = 4` and `x = 17`, the first apartment yields zero
continuity errors and the second exactly one. -/
theorem C6_corridor_continuity_amended :
    (∀ (sq : ℚ → ℚ) (b : Building),
      (validate_phase3_corridor sq b).filter
        (fun e => e.message == "E023-outside" ||
          e.message == "E023-disconnected") =
        b.stories.flatMap (fun st => e023Block sq st)) ∧
    (∀ (sq : ℚ → ℚ) (st : Story) (aid : String),
      e023Count sq st aid = specE023Count sq st aid) ∧
    e023Count ratSqrt c6Story "apt-a1" = 0 ∧
    e023Count ratSqrt c6Story "apt-a2" = 1 := by
  have h64 : ratSqrt 64 = 8 := by norm_num [ratSqrt]
  have h36 : ratSqrt 36 = 6 := by norm_num [ratSqrt]
  have hc1 : strContains (pyLower "Corridor South A") "corridor" = true := by decide
  have hc2 : strContains (pyLower "Corridor South B") "corridor" = true := by decide
  have he1 : strContains (pyLower "A1 Entry") (pyLower "A1") = true := by decide
  have he2 : strContains (pyLower "A1 Entry") "entry" = true := by decide
  have he3 : strContains (pyLower "A2 Entry") (pyLower "A1") = false := by decide
  have he4 : strContains (pyLower "A2 Entry") (pyLower "A2") = true := by decide
  have he5 : strContains (pyLower "A2 Entry") "entry" = true := by decide
  have he6 : strContains (pyLower "A1 Entry") (pyLower "A2") = false := by decide
  refine ⟨validator_e023_filter, e023Count_eq_spec, ?_, ?_⟩
  · norm_num [e023Count, e023Block, corridorWallsOf, c6Story, mkHWall, mkDoor,
      mkApt, c6Stair, xIntervals, mergedRuns, mergeRuns, List.insertionSort,
      List.orderedInsert, pairLE, coreX, coreIntervalIdx, firstIdxFrom,
      doorWorldX, doorIntervalIdx, entryDoors, e023DoorError,
      h64, h36, hc1, hc2, he1, he2, he3, he4, he5, he6, List.find?,
      List.cons_ne_nil, ne_eq, String.reduceEq, decide_False, decide_True,
      List.filter_cons, List.filterMap_cons, List.flatMap_cons]
    simp only [String.reduceEq, decide_False, decide_True]
    norm_num [h64, h36, List.filter_cons]
    decide
  · norm_num [e023Count, e023Block, corridorWallsOf, c6Story, mkHWall, mkDoor,
      mkApt, c6Stair, xIntervals, mergedRuns, mergeRuns, List.insertionSort,
      List.orderedInsert, pairLE, coreX, coreIntervalIdx, firstIdxFrom,
      doorWorldX, doorIntervalIdx, entryDoors, e023DoorError,
      h64, h36, hc1, hc2, he1, he2, he3, he4, he5, he6, List.find?,
      List.cons_ne_nil, ne_eq, String.reduceEq, decide_False, decide_True,
      List.filter_cons, List.filterMap_cons, List.flatMap_cons]
    simp only [String.reduceEq, decide_False, decide_True]
    norm_num [h64, h36, List.filter_cons]

/-! ### C8: BFS reachability -/

theorem countP_strict_lt {U : List String} {p q : String → Bool}
    (hmono : ∀ x, q x = true → p x = true) {nb : String} (hmem : nb ∈ U)
    (hp : p nb = true) (hq : q nb = false) : U.countP q < U.countP p := by
  induction U with
  | nil => cases hmem
  | cons a t ih =>
    rw [List.countP_cons, List.countP_cons]
    rcases List.mem_cons.mp hmem with h | h
    · subst h
      rw [hp, hq]
      simp only [if_true, if_false, add_zero]
      exact Nat.lt_succ_of_le (List.countP_mono_left (fun x _ => hmono x))
    · have hlt := ih h
      have hif : (if q a then 1 else 0) ≤ (if p a then 1 else 0) := by
        cases hqa : q a
        · simp
        · rw [hmono a hqa]
      omega

theorem bfsStep_visited_mono (nbs : List String) (vq : List String × List String)
    (x : String) (hx : x ∈ vq.1) : x ∈ (bfsStep nbs vq).1 := by
  induction nbs generalizing vq with
  | nil => exact hx
  | cons nb rest ih =>
    show x ∈ (bfsStep rest _).1
    by_cases h : nb ∈ vq.1
    · simp only [bfsStep, List.foldl_cons, if_pos h] at *
      exact ih vq hx
    · simp only [bfsStep, List.foldl_cons, if_neg h] at *
      exact ih _ (List.mem_append_left _ hx)

theorem bfsStep_queue_mono (nbs : List String) (vq : List String × List String)
    (x : String) (hx : x ∈ vq.2) : x ∈ (bfsStep nbs vq).2 := by
  induction nbs generalizing vq with
  | nil => exact hx
  | cons nb rest ih =>
    by_cases h : nb ∈ vq.1
    · simp only [bfsStep, List.foldl_cons, if_pos h] at *
      exact ih vq hx
    · simp only [bfsStep, List.foldl_cons, if_neg h] at *
      exact ih _ (List.mem_append_left _ hx)

theorem bfsStep_covers (nbs : List String) (vq : List String × List String)
    (nb : String) (hnb : nb ∈ nbs) : nb ∈ (bfsStep nbs vq).1 := by
  induction nbs generalizing vq with
  | nil => cases hnb
  | cons a rest ih =>
    rcases List.mem_cons.mp hnb with h | h
    · subst h
      by_cases ha : nb ∈ vq.1
      · simp only [bfsStep, List.foldl_cons, if_pos ha]
        exact bfsStep_visited_mono rest vq nb ha
      · simp only [bfsStep, List.foldl_cons, if_neg ha]
        exact bfsStep_visited_mono rest _ nb
          (List.mem_append_right _ (List.mem_singleton.mpr rfl))
    · by_cases ha : a ∈ vq.1
      · simp only [bfsStep, List.foldl_cons, if_pos ha]
        exact ih vq h
      · simp only [bfsStep, List.foldl_cons, if_neg ha]
        exact ih _ h

theorem bfsStep_new_in_queue (nbs : List String) (vq : List String × List String)
    (x : String) (hx : x ∈ (bfsStep nbs vq).1) :
    x ∈ vq.1 ∨ x ∈ (bfsStep nbs vq).2 := by
  induction nbs generalizing vq with
  | nil => exact Or.inl hx
  | cons nb rest ih =>
    by_cases h : nb ∈ vq.1
    · simp only [bfsStep, List.foldl_cons, if_pos h] at *
      exact ih vq hx
    · simp only [bfsStep, List.foldl_cons, if_neg h] at *
      rcases ih _ hx with hv | hq
      · rcases List.mem_append.mp hv with hv' | hv'
        · exact Or.inl hv'
        · refine Or.inr ?_
          have : x ∈ (vq.2 ++ [nb] : List String) :=
            List.mem_append_right _ hv'
          exact bfsStep_queue_mono rest _ x this
      · exact Or.inr hq

theorem bfsStep_measure_le (U : List String) (nbs : List String)
    (vq : List String × List String) (hsub : ∀ nb ∈ nbs, nb ∈ U) :
    bfsMeasure U (bfsStep nbs vq) ≤ bfsMeasure U vq := by
  induction nbs generalizing vq with
  | nil => exact le_refl _
  | cons nb rest ih =>
    obtain ⟨v, q⟩ := vq
    by_cases h : nb ∈ v
    · simp only [bfsStep, List.foldl_cons, if_pos h]
      exact ih (v, q) (fun x hx => hsub x (List.mem_cons_of_mem _ hx))
    · simp only [bfsStep, List.foldl_cons, if_neg h]
      refine le_trans
        (ih (v ++ [nb], q ++ [nb])
          (fun x hx => hsub x (List.mem_cons_of_mem _ hx))) ?_
      have hlt : U.countP (fun x => decide (x ∉ v ++ [nb]))
          < U.countP (fun x => decide (x ∉ v)) := by
        refine countP_strict_lt ?_ (hsub nb (List.mem_cons_self nb rest)) ?_ ?_
        · intro x hx
          simp only [decide_eq_true_eq] at *
          exact fun hm => hx (List.mem_append_left _ hm)
        · exact decide_eq_true h
        · simp
      show U.countP (fun x => decide (x ∉ v ++ [nb])) + (q ++ [nb]).length
        ≤ U.countP (fun x => decide (x ∉ v)) + q.length
      rw [List.length_append, List.length_singleton]
      omega

theorem foldl_neighbors_acc (v : String) (edges : List GraphEdge)
    (acc : List (String × GraphEdge)) :
    edges.foldl
      (fun a e =>
        if e.from_node = v then a ++ [(e.to_node, e)]
        else if e.to_node = v then a ++ [(e.from_node, e)] else a) acc =
    acc ++ edges.flatMap (fun e =>
      if e.from_node = v then [(e.to_node, e)]
      else if e.to_node = v then [(e.from_node, e)] else []) := by
  induction edges generalizing acc with
  | nil => simp
  | cons e t ih =>
    rw [List.foldl_cons, List.flatMap_cons]
    by_cases h1 : e.from_node = v
    · rw [if_pos h1, if_pos h1, ih, List.append_assoc]
    · rw [if_neg h1, if_neg h1]
      by_cases h2 : e.to_node = v
      · rw [if_pos h2, if_pos h2, ih, List.append_assoc]
      · rw [if_neg h2, if_neg h2, ih, List.nil_append]

theorem neighbors_eq_flatMap (g : ConnectivityGraph) (v : String) :
    g.neighbors v = g.edges.flatMap (fun e =>
      if e.from_node = v then [(e.to_node, e)]
      else if e.to_node = v then [(e.from_node, e)] else []) := by
  rw [ConnectivityGraph.neighbors, foldl_neighbors_acc, List.nil_append]

theorem neighborNames_subset (g : ConnectivityGraph) (v x : String)
    (hx : x ∈ neighborNames g v) : x ∈ edgeNames g := by
  simp only [neighborNames, neighbors_eq_flatMap, List.mem_map,
    List.mem_flatMap] at hx
  obtain ⟨⟨n, e⟩, ⟨ed, hed, hmem⟩, hfst⟩ := hx
  simp only at hfst
  subst hfst
  simp only [edgeNames, List.mem_flatMap]
  refine ⟨ed, hed, ?_⟩
  by_cases h1 : ed.from_node = v
  · rw [if_pos h1] at hmem
    rcases List.mem_singleton.mp hmem with h
    cases h
    simp
  · rw [if_neg h1] at hmem
    by_cases h2 : ed.to_node = v
    · rw [if_pos h2] at hmem
      rcases List.mem_singleton.mp hmem with h
      cases h
      simp
    · rw [if_neg h2] at hmem
      cases hmem

theorem bfsGo_queue_empty (g : ConnectivityGraph) (fuel : ℕ)
    (vq : List String × List String)
    (hm : bfsMeasure (edgeNames g) vq ≤ fuel) : (bfsGo g fuel vq).2 = [] := by
  induction fuel generalizing vq with
  | zero =>
    obtain ⟨v, q⟩ := vq
    have : q.length = 0 := by
      simp only [bfsMeasure, Nat.le_zero] at hm
      omega
    rw [List.length_eq_zero] at this
    subst this
    rfl
  | succ fuel ih =>
    obtain ⟨v, q⟩ := vq
    cases q with
    | nil => rfl
    | cons current rest =>
      show (bfsGo g fuel (bfsStep (neighborNames g current) (v, rest))).2 = []
      refine ih _ (le_trans (bfsStep_measure_le _ _ _
        (fun nb hnb => neighborNames_subset g current nb hnb)) ?_)
      simp only [bfsMeasure, List.length_cons] at hm ⊢
      omega

theorem bfsGo_visited_mono (g : ConnectivityGraph) (fuel : ℕ)
    (vq : List String × List String) (x : String) (hx : x ∈ vq.1) :
    x ∈ (bfsGo g fuel vq).1 := by
  induction fuel generalizing vq with
  | zero => exact hx
  | succ fuel ih =>
    obtain ⟨v, q⟩ := vq
    cases q with
    | nil => exact hx
    | cons current rest =>
      exact ih _ (bfsStep_visited_mono _ _ _ hx)

theorem bfsGo_inv (g : ConnectivityGraph) (fuel : ℕ)
    (vq : List String × List String) (hinv : bfsInv g vq) :
    bfsInv g (bfsGo g fuel vq) := by
  induction fuel generalizing vq with
  | zero => exact hinv
  | succ fuel ih =>
    obtain ⟨v, q⟩ := vq
    cases q with
    | nil => exact hinv
    | cons current rest =>
      refine ih _ ?_
      intro x hx
      rcases bfsStep_new_in_queue _ _ _ hx with hv | hq
      · rcases hinv x hv with hqx | hcl
        · rcases List.mem_cons.mp hqx with h | h
          · subst h
            exact Or.inr (fun nb hnb => bfsStep_covers _ _ nb hnb)
          · exact Or.inl (bfsStep_queue_mono _ _ _ h)
        · exact Or.inr (fun nb hnb =>
            bfsStep_visited_mono _ _ nb (hcl nb hnb))
      · exact Or.inl hq

/-- C8: reachable_from contains the start and is closed under neighbors, but
only when the start is a registered node; for an unregistered start it
returns the empty list (which excludes the start itself). -/
theorem C8_reachability_amended (g : ConnectivityGraph) (s : String) :
    (dictContains g.nodes s = true → s ∈ g.reachable_from s) ∧
    (dictContains g.nodes s = false → g.reachable_from s = []) ∧
    (∀ v ∈ g.reachable_from s, ∀ nb ∈ neighborNames g v,
      nb ∈ g.reachable_from s) := by
  refine ⟨?_, ?_, ?_⟩
  · intro hs
    simp only [ConnectivityGraph.reachable_from, hs, if_true]
    exact bfsGo_visited_mono g _ _ s (List.mem_singleton.mpr rfl)
  · intro hs
    simp only [ConnectivityGraph.reachable_from, hs]
    rfl
  · intro v hv nb hnb
    cases hs : dictContains g.nodes s with
    | false =>
      simp only [ConnectivityGraph.reachable_from, hs] at hv
      simp at hv
    | true =>
      simp only [ConnectivityGraph.reachable_from, hs, if_true] at hv ⊢
      have hq : (bfsGo g ((edgeNames g).length + 1) ([s], [s])).2 = [] := by
        refine bfsGo_queue_empty g _ _ ?_
        simp only [bfsMeasure, List.length_singleton]
        have hle : (edgeNames g).countP (fun x => decide (x ∉ ([s] : List String)))
            ≤ (edgeNames g).length := List.countP_le_length _
        omega
      have hinv : bfsInv g (bfsGo g ((edgeNames g).length + 1) ([s], [s])) := by
        refine bfsGo_inv g _ _ ?_
        intro x hx
        exact Or.inl hx
      rcases hinv v hv with hqm | hcl
      · rw [hq] at hqm
        cases hqm
      · exact hcl nb hnb

/-- Witness for C8: in the two-room graph the start "A" is reachable from
itself and its neighbor "B" is included in the reachable set. -/
theorem C8_reachability_witness :
    dictContains c8PairGraph.nodes "A" = true ∧
    "A" ∈ c8PairGraph.reachable_from "A" ∧
    "B" ∈ neighborNames c8PairGraph "A" ∧
    "B" ∈ c8PairGraph.reachable_from "A" := by
  have h1 : dictContains c8PairGraph.nodes "A" = true := by decide
  have h2 : "A" ∈ c8PairGraph.reachable_from "A" :=
    (C8_reachability_amended c8PairGraph "A").1 h1
  have h3 : "B" ∈ neighborNames c8PairGraph "A" := by decide
  exact ⟨h1, h2, h3,
    (C8_reachability_amended c8PairGraph "A").2.2 "A" h2 "B" h3⟩

/-- C8 counterexample: for a start name that is not a node (here the empty
graph), `reachable_from` returns the empty set, which is not a superset of
the singleton of the start — so the claim fails as stated for all graphs
and all start names. -/
theorem C8_reachability_counterexample :
    c8EmptyGraph.reachable_from "A" = [] ∧
    ¬ ("A" ∈ c8EmptyGraph.reachable_from "A") := by
  refine ⟨rfl, ?_⟩
  intro h
  rw [show c8EmptyGraph.reachable_from "A" = [] from rfl] at h
  cases h

/-- C6 counterexample: with the single run `[0, 8]` and the core on it, an
apartment entry door at `x = 8.05` lies strictly off every run, yet the
corridor-continuity check emits zero errors for that apartment (the code
treats positions within 0.1 m of a run as on it) — refuting the claim's
"emits exactly one error for each apartment entry door … whose x-position
lies off every run". -/
theorem C6_corridor_continuity_counterexample :
    mergedRuns c6TolStory = [(0, 8)] ∧
    doorWorldX ratSqrt c6TolWallV c6TolDoor = 805 / 100 ∧
    ¬ ((0 : ℚ) ≤ 805 / 100 ∧ (805 / 100 : ℚ) ≤ 8) ∧
    entryDoors c6TolStory (mkApt "apt-a1" "A1") = [c6TolDoor] ∧
    e023Count ratSqrt c6TolStory "apt-a1" = 0 := by
  have h94 : ratSqrt (9 / 4) = 3 / 2 := by norm_num [ratSqrt]
  have hc1 : strContains (pyLower "Corridor South A") "corridor" = true := by decide
  have hc3 : strContains (pyLower "Corridor West End") "corridor" = true := by decide
  have he1 : strContains (pyLower "A1 Entry") (pyLower "A1") = true := by decide
  have he2 : strContains (pyLower "A1 Entry") "entry" = true := by decide
  refine ⟨?_, ?_, by norm_num, ?_, ?_⟩
  · norm_num [mergedRuns, mergeRuns, xIntervals, corridorWallsOf, c6TolStory,
      c6TolWallV, mkHWall, List.insertionSort, List.orderedInsert, pairLE,
      hc1, hc3, List.filter_cons, List.filterMap_cons]
  · norm_num [doorWorldX, c6TolWallV, c6TolDoor, mkDoor, h94]
  · norm_num [entryDoors, corridorWallsOf, c6TolStory, c6TolWallV, c6TolDoor,
      mkHWall, mkDoor, mkApt, hc1, hc3, he1, he2, List.filter_cons,
      String.reduceEq, decide_False, decide_True]
  · norm_num [e023Count, e023Block, corridorWallsOf, c6TolStory, c6TolWallV,
      c6TolDoor, mkHWall, mkDoor, mkApt, c6Stair, xIntervals, mergedRuns,
      mergeRuns, List.insertionSort, List.orderedInsert, pairLE, coreX,
      coreIntervalIdx, firstIdxFrom, doorWorldX, doorIntervalIdx, entryDoors,
      e023DoorError, h94, hc1, hc3, he1, he2, List.find?,
      List.cons_ne_nil, ne_eq, String.reduceEq, decide_False, decide_True,
      List.filter_cons, List.filterMap_cons, List.flatMap_cons]
    simp only [String.reduceEq, decide_False, decide_True]
    norm_num [h94, List.filter_cons]

/-! ### C10: the Exterior anchor node -/

theorem find?_map_replace (m : List (String × GraphNode)) (k k' : String)
    (v' : GraphNode) (hne : k' ≠ k) :
    (m.map (fun p => if p.1 = k' then (k', v') else p)).find?
        (fun p => p.1 = k)
      = m.find? (fun p => p.1 = k) := by
  induction m with
  | nil => rfl
  | cons p t ih =>
    rw [List.map_cons]
    by_cases hp : p.1 = k'
    · rw [if_pos hp, List.find?_cons_of_neg _ (by simp [hne]),
        List.find?_cons_of_neg _ (by simp [hp, hne])]
      exact ih
    · rw [if_neg hp]
      by_cases hk : p.1 = k
      · rw [List.find?_cons_of_pos _ (by simp [hk]),
          List.find?_cons_of_pos _ (by simp [hk])]
      · rw [List.find?_cons_of_neg _ (by simp [hk]),
          List.find?_cons_of_neg _ (by simp [hk])]
        exact ih

theorem find?_append_single (m : List (String × GraphNode)) (k k' : String)
    (v' : GraphNode) (hne : k' ≠ k) :
    (m ++ [(k', v')]).find? (fun p => p.1 = k)
      = m.find? (fun p => p.1 = k) := by
  induction m with
  | nil =>
    rw [List.nil_append, List.find?_cons_of_neg _ (by simp [hne])]
  | cons p t ih =>
    rw [List.cons_append]
    by_cases hk : p.1 = k
    · rw [List.find?_cons_of_pos _ (by simp [hk]),
        List.find?_cons_of_pos _ (by simp [hk])]
    · rw [List.find?_cons_of_neg _ (by simp [hk]),
        List.find?_cons_of_neg _ (by simp [hk])]
      exact ih

theorem dictFind_insert_ne (m : List (String × GraphNode)) (k k' : String)
    (v' : GraphNode) (hne : k' ≠ k) :
    dictFind (dictInsert m k' v') k = dictFind m k := by
  rw [dictInsert]
  by_cases hc : m.any (fun p => p.1 = k') = true
  · rw [if_pos hc, dictFind, find?_map_replace m k k' v' hne]
    rfl
  · rw [if_neg hc, dictFind, find?_append_single m k k' v' hne]
    rfl

theorem dictContains_of_find (m : List (String × GraphNode)) (k : String)
    (v : GraphNode) (h : dictFind m k = some v) : dictContains m k = true := by
  rw [dictFind] at h
  obtain ⟨pr, hpr, _⟩ := Option.map_eq_some'.mp h
  have hmem := List.mem_of_find?_eq_some hpr
  have hpred := List.find?_some hpr
  exact List.any_eq_true.mpr ⟨pr, hmem, hpred⟩

theorem find?_map_replace_self (m : List (String × GraphNode)) (k : String)
    (v' : GraphNode) (hc : m.any (fun p => p.1 = k) = true) :
    (m.map (fun p => if p.1 = k then (k, v') else p)).find?
        (fun p => p.1 = k)
      = some (k, v') := by
  induction m with
  | nil => cases hc
  | cons p t ih =>
    rw [List.map_cons]
    by_cases hp : p.1 = k
    · rw [if_pos hp, List.find?_cons_of_pos _ (by simp)]
    · rw [if_neg hp, List.find?_cons_of_neg _ (by simp [hp])]
      apply ih
      simpa [hp] using hc

theorem find?_append_self_none (m : List (String × GraphNode)) (k : String)
    (v' : GraphNode) (hc : m.any (fun p => p.1 = k) = false) :
    (m ++ [(k, v')]).find? (fun p => p.1 = k) = some (k, v') := by
  induction m with
  | nil => rw [List.nil_append, List.find?_cons_of_pos _ (by simp)]
  | cons p t ih =>
    rw [List.any_cons, Bool.or_eq_false_iff] at hc
    obtain ⟨h1, h2⟩ := hc
    rw [List.cons_append, List.find?_cons_of_neg _ (by simp_all)]
    exact ih h2

theorem dictFind_insert_self (m : List (String × GraphNode)) (k : String)
    (v : GraphNode) : dictFind (dictInsert m k v) k = some v := by
  rw [dictInsert]
  by_cases hc : m.any (fun p => p.1 = k) = true
  · rw [if_pos hc, dictFind, find?_map_replace_self m k v hc]
    rfl
  · rw [if_neg hc, dictFind,
      find?_append_self_none m k v (Bool.eq_false_iff.mpr hc)]
    rfl

theorem dictFind_guard_insert (m : List (String × GraphNode)) (k' : String)
    (v' : GraphNode) (c : Bool) (k : String) (v : GraphNode)
    (h : dictFind m k = some v) :
    dictFind (if !dictContains m k' && c then dictInsert m k' v' else m) k
      = some v := by
  by_cases hc : (!dictContains m k' && c) = true
  · rw [if_pos hc]
    by_cases hk : k' = k
    · subst hk
      rw [dictContains_of_find m k' v h] at hc
      simp at hc
    · rw [dictFind_insert_ne m k k' v' hk]
      exact h
  · rw [if_neg hc]
    exact h

theorem processDoor_preserves_find (sq : ℚ → ℚ) (story : Story)
    (zones : List Zone) (sname : String) (step : ℚ) (door : Door)
    (g : ConnectivityGraph) (k : String) (v : GraphNode)
    (h : dictFind g.nodes k = some v) :
    dictFind (processDoor sq story zones sname step g door).nodes k = some v := by
  unfold processDoor
  cases hw : wallMapGet story.walls door.wall_id with
  | none => exact h
  | some wall =>
    simp only []
    split
    · exact h
    · exact dictFind_guard_insert _ _ _ _ k v
        (dictFind_guard_insert _ _ _ _ k v h)

theorem foldl_processDoor_preserves_find (sq : ℚ → ℚ) (story : Story)
    (zones : List Zone) (sname : String) (step : ℚ) (doors : List Door)
    (g : ConnectivityGraph) (k : String) (v : GraphNode)
    (h : dictFind g.nodes k = some v) :
    dictFind ((doors.foldl (processDoor sq story zones sname step) g)).nodes k
      = some v := by
  induction doors generalizing g with
  | nil => exact h
  | cons d t ih =>
    rw [List.foldl_cons]
    exact ih _ (processDoor_preserves_find sq story zones sname step d g k v h)

theorem build_graph_nodes_exterior (sq : ℚ → ℚ) (story : Story)
    (sname : String) (step : ℚ) :
    dictFind (build_graph_of_story sq story sname step).nodes "Exterior"
      = some { name := "Exterior", node_type := "exterior", area := 0
               storey := sname } := by
  unfold build_graph_of_story
  exact foldl_processDoor_preserves_find sq story _ sname step story.doors _
    "Exterior" _ (dictFind_insert_self _ "Exterior" _)

/-- C10: every graph built by `build_connectivity_graph` contains the
`Exterior` anchor node, with node type `exterior` and area `0`, regardless of
the story's contents — the anchor is registered unconditionally before the
door loop and a registered key is never removed or overwritten. -/
theorem C10_exterior_anchor (sq : ℚ → ℚ) (b : Building) (sname : String)
    (step : ℚ) (g : ConnectivityGraph)
    (hg : build_connectivity_graph sq b sname step = some g) :
    dictFind g.nodes "Exterior"
      = some { name := "Exterior", node_type := "exterior", area := 0
               storey := sname } := by
  rw [build_connectivity_graph] at hg
  obtain ⟨story, hst, rfl⟩ := Option.map_eq_some'.mp hg
  exact build_graph_nodes_exterior sq story sname step

/-- Witness for C10 at a building with one empty story. -/
theorem C10_exterior_anchor_witness :
    build_connectivity_graph ratSqrt c10Building "L0" (3 / 10)
        = some (build_graph_of_story ratSqrt (mkWallStory "L0" 0 []) "L0" (3 / 10)) ∧
    dictFind (build_graph_of_story ratSqrt (mkWallStory "L0" 0 []) "L0" (3 / 10)).nodes
        "Exterior"
      = some { name := "Exterior", node_type := "exterior", area := 0
               storey := "L0" } := by
  have hg : build_connectivity_graph ratSqrt c10Building "L0" (3 / 10)
      = some (build_graph_of_story ratSqrt (mkWallStory "L0" 0 []) "L0" (3 / 10)) := rfl
  exact ⟨hg, C10_exterior_anchor ratSqrt c10Building "L0" (3 / 10) _ hg⟩

/-! ### C1: the per-door edge decision -/

theorem processDoor_edges (sq : ℚ → ℚ) (story : Story) (zones : List Zone)
    (sname : String) (step : ℚ) (g : ConnectivityGraph) (door : Door) :
    (processDoor sq story zones sname step g door).edges
      = g.edges ++ (doorEdgeSpec sq story zones step door).toList := by
  unfold processDoor doorEdgeSpec
  cases hw : wallMapGet story.walls door.wall_id with
  | none => simp
  | some wall =>
    by_cases h1 : ((doorSides sq story zones step door wall).1.getD "Unknown")
        = ((doorSides sq story zones step door wall).2.getD "Unknown")
    · simp [h1]
    · by_cases ha : ((doorSides sq story zones step door wall).1.getD "Unknown")
          = "Unknown"
      · simp only [h1, ha, if_false, ite_false]
        simp [ha]
        split <;> rfl
      · by_cases hb : ((doorSides sq story zones step door wall).2.getD "Unknown")
            = "Unknown"
        · simp [h1, ha, hb]
        · simp [h1, ha, hb]

theorem foldl_processDoor_edges (sq : ℚ → ℚ) (story : Story)
    (zones : List Zone) (sname : String) (step : ℚ) (doors : List Door)
    (g : ConnectivityGraph) :
    ((doors.foldl (processDoor sq story zones sname step) g)).edges
      = g.edges ++ doors.filterMap (doorEdgeSpec sq story zones step) := by
  induction doors generalizing g with
  | nil => simp
  | cons d t ih =>
    rw [List.foldl_cons, ih, processDoor_edges, List.filterMap_cons]
    cases doorEdgeSpec sq story zones step d <;> simp

/-- C1: the edge list of a built graph is exactly the doors mapped through
the per-door decision `doorEdgeSpec` — an edge is appended iff the host wall
exists, the two probe sides resolve to *different* names, and *both* are
resolved (neither is `Unknown`); in particular a door with exactly one
unresolved side produces *no* edge, contrary to the claim. -/
theorem C1_door_edges_amended (sq : ℚ → ℚ) (story : Story) (sname : String)
    (step : ℚ) :
    (build_graph_of_story sq story sname step).edges
      = story.doors.filterMap (doorEdgeSpec sq story (zonesOfStory story) step) := by
  unfold build_graph_of_story
  rw [foldl_processDoor_edges]
  rfl

/-- C1 counterexample: in `c1Story` the door's `+normal` probe resolves to
`RoomA` while the `−normal` probe is unresolved (inside the building, in no
zone) — the two sides are neither equal nor both `Unknown`, yet the built
graph has *no* edge for the door, refuting "in every other case … appends an
edge". -/
theorem C1_door_edge_counterexample :
    doorSides ratSqrt c1Story (zonesOfStory c1Story) (3 / 10) c1Door c1Wall
      = (some "RoomA", none) ∧
    wallMapGet c1Story.walls c1Door.wall_id = some c1Wall ∧
    (build_graph_of_story ratSqrt c1Story "L0" (3 / 10)).edges = [] := by
  have h100 : ratSqrt 100 = 10 := by norm_num [ratSqrt]
  have hz : zonesOfStory c1Story = [c1Zone] := rfl
  have hwm : wallMapGet c1Story.walls c1Door.wall_id = some c1Wall := rfl
  have hcomm : commonWallKeywords.any
      (fun kw => strContains (pyLower "Inner") kw) = false := by decide
  have ha : find_zone_at_point 10 (53 / 10) [c1Zone] (3 / 20) false
      = some "RoomA" := by
    norm_num [find_zone_at_point, c1Zone, point_in_polygon, List.range_succ,
      List.foldl_append, List.foldl_cons, List.foldl_nil, List.filter_cons,
      List.getD_cons_zero, List.getD_cons_succ, List.getD]
  have hb : find_zone_at_point 10 (47 / 10) [c1Zone] (3 / 20) false
      = none := by
    norm_num [find_zone_at_point, c1Zone, point_in_polygon,
      point_in_polygon_with_tolerance, point_to_segment_dist2, sqrtLE,
      List.range_succ, List.foldl_append, List.foldl_cons, List.foldl_nil,
      List.filter_cons, List.any_append, List.any_cons,
      List.getD_cons_zero, List.getD_cons_succ, List.getD]
  have hout : is_outside_building 10 (47 / 10) c1Story = false := by
    norm_num [is_outside_building, c1Story, c1ExtWall, c1Wall, pyMin, pyMax,
      wallXs, wallYs, List.filter_cons, List.flatMap_cons, List.foldl_cons,
      List.foldl_nil]
    exact List.cons_ne_nil _ _
  have hds : doorSides ratSqrt c1Story (zonesOfStory c1Story) (3 / 10)
      c1Door c1Wall = (some "RoomA", none) := by
    rw [hz]
    norm_num [doorSides, door_center_2d, wall_normal, c1Wall, c1Door, h100,
      hcomm, resolveSide, ha, hb, hout]
  have hspec : doorEdgeSpec ratSqrt c1Story (zonesOfStory c1Story) (3 / 10)
      c1Door = none := by
    simp only [doorEdgeSpec, hwm, hds]
    decide
  refine ⟨hds, hwm, ?_⟩
  unfold build_graph_of_story
  rw [foldl_processDoor_edges]
  rw [show c1Story.doors = [c1Door] from rfl]
  simp [hspec]

/-! ### C4: validators never raise -/

/-- C4: `validate_interior_enclosure` *does* raise on a reachable input — a
bedroom space with an empty name makes `space.name.lower().split()[-1]`
index an empty list (`IndexError`, modelled as `Except.error`), refuting
"every validator … never raises an exception" and "an empty element name …
emits no finding … instead of signaling a fault". -/
theorem C4_validator_raises :
    validate_interior_enclosure c4Building = Except.error () := rfl

/-! ### C3: what mutates the model -/

theorem map_tagList {α : Type} (getTag : α → String) (setTag : α → String → α)
    (pre : String) (f : α → α) (hf : ∀ a t, f (setTag a t) = f a) :
    ∀ (i : ℕ) (l : List α),
      (tagList getTag setTag pre i l).map f = l.map f := by
  intro i l
  induction l generalizing i with
  | nil => rfl
  | cons a as ih =>
    simp only [tagList, List.map_cons, ih]
    by_cases h : getTag a = ""
    · rw [if_pos h, hf]
    · rw [if_neg h]

theorem stripTags_ensure_tags (st : Story) :
    stripTags st.ensure_tags = stripTags st := by
  cases st
  simp only [stripTags, Story.ensure_tags]
  congr 1 <;> (refine map_tagList _ _ _ _ ?_ _ _; intro a t; rfl)

theorem map_set_eq {α β : Type} (f : α → β) (xs : List α) (i : ℕ) (a d : α)
    (h : f a = f (xs.getD i d)) : (xs.set i a).map f = xs.map f := by
  induction xs generalizing i with
  | nil => rfl
  | cons x t ih =>
    cases i with
    | zero =>
      simp only [List.set_cons_zero, List.map_cons]
      rw [h]
      rfl
    | succ n =>
      simp only [List.set_cons_succ, List.map_cons]
      rw [ih n h]

theorem snapStepOne_clearSE (tol : ℚ) (st : List Wall × List SnapResult)
    (step : ℕ × Bool) :
    ((snapStepOne tol st step).1).map clearSE = st.1.map clearSE := by
  simp only [snapStepOne]
  split
  · rfl
  · split
    · apply map_set_eq
      split <;> rfl
    · rfl

theorem snapFold_clearSE (tol : ℚ) (steps : List (ℕ × Bool))
    (st : List Wall × List SnapResult) :
    ((steps.foldl (snapStepOne tol) st).1).map clearSE = st.1.map clearSE := by
  induction steps generalizing st with
  | nil => rfl
  | cons s ss ih =>
    rw [List.foldl_cons, ih, snapStepOne_clearSE]

/-- C3: the engine's mutations are exactly these — `find_connections` returns
the *tag-completed* story (it runs `ensure_tags`, so it does mutate);
`ensure_tags` rewrites only element tags; and `snap_endpoints` returns the
tag-completed story with only wall start/end points further rewritten. -/
theorem C3_mutation_amended (story : Story) (tol : ℚ) :
    (find_connections story tol).2 = story.ensure_tags ∧
    stripTags story.ensure_tags = stripTags story ∧
    clearWallsSE ((snap_endpoints story tol).2) = clearWallsSE story.ensure_tags := by
  refine ⟨rfl, stripTags_ensure_tags story, ?_⟩
  exact congrArg (fun l => { story.ensure_tags with walls := l })
    (snapFold_clearSE tol _ (story.ensure_tags.walls, []))

/-- C3 counterexample: on a story with an untagged wall both
`find_connections` (claimed to be non-mutating) and `snap_endpoints`
(claimed to rewrite only wall start/end points) hand back a story whose wall
tags changed — refuting the claim in both parts. -/
theorem C3_mutation_counterexample :
    ((find_connections c3Story (1 / 50)).2).walls.map Wall.tag
        ≠ c3Story.walls.map Wall.tag ∧
    ((snap_endpoints c3Story (1 / 50)).2).walls.map Wall.tag
        ≠ c3Story.walls.map Wall.tag := by
  constructor <;> decide

/-! ### C2: snap idempotence -/

theorem snapStepOne_cases (tol : ℚ) (st : List Wall × List SnapResult)
    (s : ℕ × Bool) :
    snapStepOne tol st s = st ∨
    ∃ ws r, snapStepOne tol st s = (ws, st.2 ++ [r]) := by
  simp only [snapStepOne]
  split
  · exact Or.inl rfl
  · split
    · exact Or.inr ⟨_, _, rfl⟩
    · exact Or.inl rfl

theorem snapStepOne_records_mono (tol : ℚ) (st : List Wall × List SnapResult)
    (s : ℕ × Bool) : st.2.length ≤ ((snapStepOne tol st s).2).length := by
  rcases snapStepOne_cases tol st s with he | ⟨ws, r, he⟩
  · rw [he]
  · rw [he]
    simp

theorem snapStepOne_eq_of_records (tol : ℚ) (st : List Wall × List SnapResult)
    (s : ℕ × Bool) (h : ((snapStepOne tol st s).2).length = st.2.length) :
    snapStepOne tol st s = st := by
  rcases snapStepOne_cases tol st s with he | ⟨ws, r, he⟩
  · exact he
  · rw [he] at h
    simp at h

theorem snapFold_records_mono (tol : ℚ) (steps : List (ℕ × Bool))
    (st : List Wall × List SnapResult) :
    st.2.length ≤ ((steps.foldl (snapStepOne tol) st).2).length := by
  induction steps generalizing st with
  | nil => exact le_refl _
  | cons s ss ih =>
    rw [List.foldl_cons]
    exact le_trans (snapStepOne_records_mono tol st s) (ih _)

theorem snapFold_eq_of_records (tol : ℚ) (steps : List (ℕ × Bool))
    (st : List Wall × List SnapResult)
    (h : ((steps.foldl (snapStepOne tol) st).2).length = st.2.length) :
    steps.foldl (snapStepOne tol) st = st := by
  induction steps generalizing st with
  | nil => rfl
  | cons s ss ih =>
    rw [List.foldl_cons] at h ⊢
    have h1 : ((snapStepOne tol st s).2).length = st.2.length := by
      have ha := snapStepOne_records_mono tol st s
      have hb := snapFold_records_mono tol ss (snapStepOne tol st s)
      omega
    have h2 : snapStepOne tol st s = st := snapStepOne_eq_of_records tol st s h1
    rw [h2] at h ⊢
    exact ih _ h

theorem tagList_id_of_tagged {α : Type} (getTag : α → String)
    (setTag : α → String → α) (pre : String) (i : ℕ) (l : List α)
    (h : ∀ a ∈ l, ¬ getTag a = "") :
    tagList getTag setTag pre i l = l := by
  induction l generalizing i with
  | nil => rfl
  | cons a as ih =>
    simp only [tagList]
    rw [if_neg (h a (List.mem_cons_self a as)),
      ih _ (fun x hx => h x (List.mem_cons_of_mem a hx))]

theorem tagList_all_tagged {α : Type} (getTag : α → String)
    (setTag : α → String → α) (pre : String) (hpre : ¬ pre.data = [])
    (hgs : ∀ a t, getTag (setTag a t) = t) :
    ∀ (i : ℕ) (l : List α), ∀ a ∈ tagList getTag setTag pre i l,
      ¬ getTag a = "" := by
  intro i l
  induction l generalizing i with
  | nil => intro a ha; cases ha
  | cons b bs ih =>
    intro a ha
    simp only [tagList] at ha
    rcases List.mem_cons.mp ha with h | h
    · subst h
      by_cases hb : getTag b = ""
      · rw [if_pos hb, hgs]
        intro hcon
        have hdata : pre.data ++ (toString i).data = [] := congrArg String.data hcon
        exact hpre (List.append_eq_nil.mp hdata).1
      · rw [if_neg hb]
        exact hb
    · exact ih (i + 1) a h

theorem ensure_tags_idem (st : Story) :
    (Story.ensure_tags st).ensure_tags = st.ensure_tags := by
  cases st
  simp only [Story.ensure_tags]
  congr 1 <;>
    exact tagList_id_of_tagged _ _ _ _ _
      (tagList_all_tagged _ _ _ (by decide) (fun a t => rfl) _ _)

/-- C2: the guarded form of snap idempotence the code does satisfy — when a
pass performs *zero* snaps, the story (beyond tag completion) is unchanged and
a second pass also performs zero snaps.  (When the first pass does snap, a
second pass may snap again: see the counterexample.) -/
theorem C2_snap_idempotence_amended (story : Story) (tol : ℚ)
    (h : (snap_endpoints story tol).1 = []) :
    (snap_endpoints story tol).2 = story.ensure_tags ∧
    (snap_endpoints ((snap_endpoints story tol).2) tol).1 = [] := by
  have hfold : ((List.range story.ensure_tags.walls.length).flatMap
        (fun i => [(i, true), (i, false)])).foldl (snapStepOne tol)
        (story.ensure_tags.walls, []) = (story.ensure_tags.walls, []) := by
    apply snapFold_eq_of_records
    have h2 : (((List.range story.ensure_tags.walls.length).flatMap
        (fun i => [(i, true), (i, false)])).foldl (snapStepOne tol)
        (story.ensure_tags.walls, [])).2 = [] := h
    rw [h2]
  have hsnap2 : (snap_endpoints story tol).2 = story.ensure_tags := by
    simp only [snap_endpoints]
    rw [hfold]
  have hfirst : (snap_endpoints story.ensure_tags tol).1
      = (snap_endpoints story tol).1 := by
    simp only [snap_endpoints]
    rw [ensure_tags_idem]
  refine ⟨hsnap2, ?_⟩
  rw [hsnap2, hfirst]
  exact h

/-- Witness for C2's amended form: a single-wall story snaps nothing on the
first pass, and the guarded idempotence applies. -/
theorem C2_snap_idempotence_witness :
    (snap_endpoints c2CleanStory (1 / 50)).1 = [] ∧
    ((snap_endpoints c2CleanStory (1 / 50)).2 = c2CleanStory.ensure_tags ∧
      (snap_endpoints ((snap_endpoints c2CleanStory (1 / 50)).2) (1 / 50)).1
        = []) :=
  ⟨rfl, C2_snap_idempotence_amended c2CleanStory (1 / 50) rfl⟩

set_option maxHeartbeats 3200000 in
/-- C2 counterexample: on the three-wall chain each pass-one snap moves an
endpoint onto a target position that itself moves later in the same pass, so
the *second* pass still performs three snaps — refuting "a second call …
returns zero snap records". -/
theorem C2_snap_idempotence_counterexample :
    snap_endpoints c2Story (1 / 50)
      = ([{ wall_tag := "W1", endSide := "start", old := (0, 0)
            new := (3 / 200, 0), snapped_to_wall := "W2"
            snapped_to_end := "start" },
          { wall_tag := "W2", endSide := "start", old := (3 / 200, 0)
            new := (3 / 100, 0), snapped_to_wall := "W3"
            snapped_to_end := "start" },
          { wall_tag := "W3", endSide := "start", old := (3 / 100, 0)
            new := (3 / 200, 0), snapped_to_wall := "W1"
            snapped_to_end := "start" }], c2Snapped) ∧
    ((snap_endpoints c2Snapped (1 / 50)).1).length = 3 := by
  have hr3 : List.range 3 = [0, 1, 2] := rfl
  have s11 : snapStepOne (1 / 50)
      ([c2Wall "w1" "W1" 0 0 0 5,
        c2Wall "w2" "W2" (3 / 200) 0 5 (-5),
        c2Wall "w3" "W3" (3 / 100) 0 (-5) (-5)],
       ([] : List SnapResult))
      (0, true)
    = ([c2Wall "w1" "W1" (3 / 200) 0 0 5,
        c2Wall "w2" "W2" (3 / 200) 0 5 (-5),
        c2Wall "w3" "W3" (3 / 100) 0 (-5) (-5)],
       [⟨"W1", "start", (0, 0), (3 / 200, 0), "W2", "start"⟩]) := by
    norm_num [snapStepOne, snapBest, snapBetter, project_onto_segment, dist2,
      sqrtLE, junkWall, c2Wall, hr3, List.foldl_cons, List.foldl_nil,
      List.getD_cons_zero, List.getD_cons_succ, List.set_cons_zero,
      List.set_cons_succ, List.length_cons, List.length_nil, String.reduceEq,
      decide_False, decide_True]
  have s12 : snapStepOne (1 / 50)
      ([c2Wall "w1" "W1" (3 / 200) 0 0 5,
        c2Wall "w2" "W2" (3 / 200) 0 5 (-5),
        c2Wall "w3" "W3" (3 / 100) 0 (-5) (-5)],
       [⟨"W1", "start", (0, 0), (3 / 200, 0), "W2", "start"⟩])
      (0, false)
    = ([c2Wall "w1" "W1" (3 / 200) 0 0 5,
        c2Wall "w2" "W2" (3 / 200) 0 5 (-5),
        c2Wall "w3" "W3" (3 / 100) 0 (-5) (-5)],
       [⟨"W1", "start", (0, 0), (3 / 200, 0), "W2", "start"⟩]) := by
    norm_num [snapStepOne, snapBest, snapBetter, project_onto_segment, dist2,
      sqrtLE, junkWall, c2Wall, hr3, List.foldl_cons, List.foldl_nil,
      List.getD_cons_zero, List.getD_cons_succ, List.set_cons_zero,
      List.set_cons_succ, List.length_cons, List.length_nil, String.reduceEq,
      decide_False, decide_True]
  have s13 : snapStepOne (1 / 50)
      ([c2Wall "w1" "W1" (3 / 200) 0 0 5,
        c2Wall "w2" "W2" (3 / 200) 0 5 (-5),
        c2Wall "w3" "W3" (3 / 100) 0 (-5) (-5)],
       [⟨"W1", "start", (0, 0), (3 / 200, 0), "W2", "start"⟩])
      (1, true)
    = ([c2Wall "w1" "W1" (3 / 200) 0 0 5,
        c2Wall "w2" "W2" (3 / 100) 0 5 (-5),
        c2Wall "w3" "W3" (3 / 100) 0 (-5) (-5)],
       [⟨"W1", "start", (0, 0), (3 / 200, 0), "W2", "start"⟩,
        ⟨"W2", "start", (3 / 200, 0), (3 / 100, 0), "W3", "start"⟩]) := by
    norm_num [snapStepOne, snapBest, snapBetter, project_onto_segment, dist2,
      sqrtLE, junkWall, c2Wall, hr3, List.foldl_cons, List.foldl_nil,
      List.getD_cons_zero, List.getD_cons_succ, List.set_cons_zero,
      List.set_cons_succ, List.length_cons, List.length_nil, String.reduceEq,
      decide_False, decide_True]
  have s14 : snapStepOne (1 / 50)
      ([c2Wall "w1" "W1" (3 / 200) 0 0 5,
        c2Wall "w2" "W2" (3 / 100) 0 5 (-5),
        c2Wall "w3" "W3" (3 / 100) 0 (-5) (-5)],
       [⟨"W1", "start", (0, 0), (3 / 200, 0), "W2", "start"⟩,
        ⟨"W2", "start", (3 / 200, 0), (3 / 100, 0), "W3", "start"⟩])
      (1, false)
    = ([c2Wall "w1" "W1" (3 / 200) 0 0 5,
        c2Wall "w2" "W2" (3 / 100) 0 5 (-5),
        c2Wall "w3" "W3" (3 / 100) 0 (-5) (-5)],
       [⟨"W1", "start", (0, 0), (3 / 200, 0), "W2", "start"⟩,
        ⟨"W2", "start", (3 / 200, 0), (3 / 100, 0), "W3", "start"⟩]) := by
    norm_num [snapStepOne, snapBest, snapBetter, project_onto_segment, dist2,
      sqrtLE, junkWall, c2Wall, hr3, List.foldl_cons, List.foldl_nil,
      List.getD_cons_zero, List.getD_cons_succ, List.set_cons_zero,
      List.set_cons_succ, List.length_cons, List.length_nil, String.reduceEq,
      decide_False, decide_True]
  have s15 : snapStepOne (1 / 50)
      ([c2Wall "w1" "W1" (3 / 200) 0 0 5,
        c2Wall "w2" "W2" (3 / 100) 0 5 (-5),
        c2Wall "w3" "W3" (3 / 100) 0 (-5) (-5)],
       [⟨"W1", "start", (0, 0), (3 / 200, 0), "W2", "start"⟩,
        ⟨"W2", "start", (3 / 200, 0), (3 / 100, 0), "W3", "start"⟩])
      (2, true)
    = ([c2Wall "w1" "W1" (3 / 200) 0 0 5,
        c2Wall "w2" "W2" (3 / 100) 0 5 (-5),
        c2Wall "w3" "W3" (3 / 200) 0 (-5) (-5)],
       [⟨"W1", "start", (0, 0), (3 / 200, 0), "W2", "start"⟩,
        ⟨"W2", "start", (3 / 200, 0), (3 / 100, 0), "W3", "start"⟩,
        ⟨"W3", "start", (3 / 100, 0), (3 / 200, 0), "W1", "start"⟩]) := by
    norm_num [snapStepOne, snapBest, snapBetter, project_onto_segment, dist2,
      sqrtLE, junkWall, c2Wall, hr3, List.foldl_cons, List.foldl_nil,
      List.getD_cons_zero, List.getD_cons_succ, List.set_cons_zero,
      List.set_cons_succ, List.length_cons, List.length_nil, String.reduceEq,
      decide_False, decide_True]
  have s16 : snapStepOne (1 / 50)
      ([c2Wall "w1" "W1" (3 / 200) 0 0 5,
        c2Wall "w2" "W2" (3 / 100) 0 5 (-5),
        c2Wall "w3" "W3" (3 / 200) 0 (-5) (-5)],
       [⟨"W1", "start", (0, 0), (3 / 200, 0), "W2", "start"⟩,
        ⟨"W2", "start", (3 / 200, 0), (3 / 100, 0), "W3", "start"⟩,
        ⟨"W3", "start", (3 / 100, 0), (3 / 200, 0), "W1", "start"⟩])
      (2, false)
    = ([c2Wall "w1" "W1" (3 / 200) 0 0 5,
        c2Wall "w2" "W2" (3 / 100) 0 5 (-5),
        c2Wall "w3" "W3" (3 / 200) 0 (-5) (-5)],
       [⟨"W1", "start", (0, 0), (3 / 200, 0), "W2", "start"⟩,
        ⟨"W2", "start", (3 / 200, 0), (3 / 100, 0), "W3", "start"⟩,
        ⟨"W3", "start", (3 / 100, 0), (3 / 200, 0), "W1", "start"⟩]) := by
    norm_num [snapStepOne, snapBest, snapBetter, project_onto_segment, dist2,
      sqrtLE, junkWall, c2Wall, hr3, List.foldl_cons, List.foldl_nil,
      List.getD_cons_zero, List.getD_cons_succ, List.set_cons_zero,
      List.set_cons_succ, List.length_cons, List.length_nil, String.reduceEq,
      decide_False, decide_True]
  have s21 : snapStepOne (1 / 50)
      ([c2Wall "w1" "W1" (3 / 200) 0 0 5,
        c2Wall "w2" "W2" (3 / 100) 0 5 (-5),
        c2Wall "w3" "W3" (3 / 200) 0 (-5) (-5)],
       ([] : List SnapResult))
      (0, true)
    = ([c2Wall "w1" "W1" (3 / 100) 0 0 5,
        c2Wall "w2" "W2" (3 / 100) 0 5 (-5),
        c2Wall "w3" "W3" (3 / 200) 0 (-5) (-5)],
       [⟨"W1", "start", (3 / 200, 0), (3 / 100, 0), "W2", "start"⟩]) := by
    norm_num [snapStepOne, snapBest, snapBetter, project_onto_segment, dist2,
      sqrtLE, junkWall, c2Wall, hr3, List.foldl_cons, List.foldl_nil,
      List.getD_cons_zero, List.getD_cons_succ, List.set_cons_zero,
      List.set_cons_succ, List.length_cons, List.length_nil, String.reduceEq,
      decide_False, decide_True]
  have s22 : snapStepOne (1 / 50)
      ([c2Wall "w1" "W1" (3 / 100) 0 0 5,
        c2Wall "w2" "W2" (3 / 100) 0 5 (-5),
        c2Wall "w3" "W3" (3 / 200) 0 (-5) (-5)],
       [⟨"W1", "start", (3 / 200, 0), (3 / 100, 0), "W2", "start"⟩])
      (0, false)
    = ([c2Wall "w1" "W1" (3 / 100) 0 0 5,
        c2Wall "w2" "W2" (3 / 100) 0 5 (-5),
        c2Wall "w3" "W3" (3 / 200) 0 (-5) (-5)],
       [⟨"W1", "start", (3 / 200, 0), (3 / 100, 0), "W2", "start"⟩]) := by
    norm_num [snapStepOne, snapBest, snapBetter, project_onto_segment, dist2,
      sqrtLE, junkWall, c2Wall, hr3, List.foldl_cons, List.foldl_nil,
      List.getD_cons_zero, List.getD_cons_succ, List.set_cons_zero,
      List.set_cons_succ, List.length_cons, List.length_nil, String.reduceEq,
      decide_False, decide_True]
  have s23 : snapStepOne (1 / 50)
      ([c2Wall "w1" "W1" (3 / 100) 0 0 5,
        c2Wall "w2" "W2" (3 / 100) 0 5 (-5),
        c2Wall "w3" "W3" (3 / 200) 0 (-5) (-5)],
       [⟨"W1", "start", (3 / 200, 0), (3 / 100, 0), "W2", "start"⟩])
      (1, true)
    = ([c2Wall "w1" "W1" (3 / 100) 0 0 5,
        c2Wall "w2" "W2" (3 / 200) 0 5 (-5),
        c2Wall "w3" "W3" (3 / 200) 0 (-5) (-5)],
       [⟨"W1", "start", (3 / 200, 0), (3 / 100, 0), "W2", "start"⟩,
        ⟨"W2", "start", (3 / 100, 0), (3 / 200, 0), "W3", "start"⟩]) := by
    norm_num [snapStepOne, snapBest, snapBetter, project_onto_segment, dist2,
      sqrtLE, junkWall, c2Wall, hr3, List.foldl_cons, List.foldl_nil,
      List.getD_cons_zero, List.getD_cons_succ, List.set_cons_zero,
      List.set_cons_succ, List.length_cons, List.length_nil, String.reduceEq,
      decide_False, decide_True]
  have s24 : snapStepOne (1 / 50)
      ([c2Wall "w1" "W1" (3 / 100) 0 0 5,
        c2Wall "w2" "W2" (3 / 200) 0 5 (-5),
        c2Wall "w3" "W3" (3 / 200) 0 (-5) (-5)],
       [⟨"W1", "start", (3 / 200, 0), (3 / 100, 0), "W2", "start"⟩,
        ⟨"W2", "start", (3 / 100, 0), (3 / 200, 0), "W3", "start"⟩])
      (1, false)
    = ([c2Wall "w1" "W1" (3 / 100) 0 0 5,
        c2Wall "w2" "W2" (3 / 200) 0 5 (-5),
        c2Wall "w3" "W3" (3 / 200) 0 (-5) (-5)],
       [⟨"W1", "start", (3 / 200, 0), (3 / 100, 0), "W2", "start"⟩,
        ⟨"W2", "start", (3 / 100, 0), (3 / 200, 0), "W3", "start"⟩]) := by
    norm_num [snapStepOne, snapBest, snapBetter, project_onto_segment, dist2,
      sqrtLE, junkWall, c2Wall, hr3, List.foldl_cons, List.foldl_nil,
      List.getD_cons_zero, List.getD_cons_succ, List.set_cons_zero,
      List.set_cons_succ, List.length_cons, List.length_nil, String.reduceEq,
      decide_False, decide_True]
  have s25 : snapStepOne (1 / 50)
      ([c2Wall "w1" "W1" (3 / 100) 0 0 5,
        c2Wall "w2" "W2" (3 / 200) 0 5 (-5),
        c2Wall "w3" "W3" (3 / 200) 0 (-5) (-5)],
       [⟨"W1", "start", (3 / 200, 0), (3 / 100, 0), "W2", "start"⟩,
        ⟨"W2", "start", (3 / 100, 0), (3 / 200, 0), "W3", "start"⟩])
      (2, true)
    = ([c2Wall "w1" "W1" (3 / 100) 0 0 5,
        c2Wall "w2" "W2" (3 / 200) 0 5 (-5),
        c2Wall "w3" "W3" (3 / 100) 0 (-5) (-5)],
       [⟨"W1", "start", (3 / 200, 0), (3 / 100, 0), "W2", "start"⟩,
        ⟨"W2", "start", (3 / 100, 0), (3 / 200, 0), "W3", "start"⟩,
        ⟨"W3", "start", (3 / 200, 0), (3 / 100, 0), "W1", "start"⟩]) := by
    norm_num [snapStepOne, snapBest, snapBetter, project_onto_segment, dist2,
      sqrtLE, junkWall, c2Wall, hr3, List.foldl_cons, List.foldl_nil,
      List.getD_cons_zero, List.getD_cons_succ, List.set_cons_zero,
      List.set_cons_succ, List.length_cons, List.length_nil, String.reduceEq,
      decide_False, decide_True]
  have s26 : snapStepOne (1 / 50)
      ([c2Wall "w1" "W1" (3 / 100) 0 0 5,
        c2Wall "w2" "W2" (3 / 200) 0 5 (-5),
        c2Wall "w3" "W3" (3 / 100) 0 (-5) (-5)],
       [⟨"W1", "start", (3 / 200, 0), (3 / 100, 0), "W2", "start"⟩,
        ⟨"W2", "start", (3 / 100, 0), (3 / 200, 0), "W3", "start"⟩,
        ⟨"W3", "start", (3 / 200, 0), (3 / 100, 0), "W1", "start"⟩])
      (2, false)
    = ([c2Wall "w1" "W1" (3 / 100) 0 0 5,
        c2Wall "w2" "W2" (3 / 200) 0 5 (-5),
        c2Wall "w3" "W3" (3 / 100) 0 (-5) (-5)],
       [⟨"W1", "start", (3 / 200, 0), (3 / 100, 0), "W2", "start"⟩,
        ⟨"W2", "start", (3 / 100, 0), (3 / 200, 0), "W3", "start"⟩,
        ⟨"W3", "start", (3 / 200, 0), (3 / 100, 0), "W1", "start"⟩]) := by
    norm_num [snapStepOne, snapBest, snapBetter, project_onto_segment, dist2,
      sqrtLE, junkWall, c2Wall, hr3, List.foldl_cons, List.foldl_nil,
      List.getD_cons_zero, List.getD_cons_succ, List.set_cons_zero,
      List.set_cons_succ, List.length_cons, List.length_nil, String.reduceEq,
      decide_False, decide_True]
  constructor
  · have hsteps : (List.range (Story.ensure_tags c2Story).walls.length).flatMap
        (fun i => [(i, true), (i, false)])
        = [(0, true), (0, false), (1, true), (1, false), (2, true), (2, false)] := rfl
    simp only [snap_endpoints]
    rw [hsteps]
    rw [show (Story.ensure_tags c2Story).walls
        = [c2Wall "w1" "W1" 0 0 0 5, c2Wall "w2" "W2" (3 / 200) 0 5 (-5),
           c2Wall "w3" "W3" (3 / 100) 0 (-5) (-5)] from rfl]
    rw [List.foldl_cons, s11, List.foldl_cons, s12, List.foldl_cons, s13,
      List.foldl_cons, s14, List.foldl_cons, s15, List.foldl_cons, s16,
      List.foldl_nil]
    rfl
  · have hsteps : (List.range (Story.ensure_tags c2Snapped).walls.length).flatMap
        (fun i => [(i, true), (i, false)])
        = [(0, true), (0, false), (1, true), (1, false), (2, true), (2, false)] := rfl
    simp only [snap_endpoints]
    rw [hsteps]
    rw [show (Story.ensure_tags c2Snapped).walls
        = [c2Wall "w1" "W1" (3 / 200) 0 0 5, c2Wall "w2" "W2" (3 / 100) 0 5 (-5),
           c2Wall "w3" "W3" (3 / 200) 0 (-5) (-5)] from rfl]
    rw [List.foldl_cons, s21, List.foldl_cons, s22, List.foldl_cons, s23,
      List.foldl_cons, s24, List.foldl_cons, s25, List.foldl_cons, s26,
      List.foldl_nil]
    rfl

end ArchicadBuilder
